import Mathlib

/-!
# libbzdev scripts: a shallow embedding

The repository consists of scripts written in JavaScript that drive the
`org.bzdev` Java library.  This development embeds the script functions that
carry logic of their own and proves properties of them:

* `tests/geom/pbtest.js`: `configPathBuilderAux`, `configurePathBuilder`;
* `tests/math/rvfvatest.js`, `rvftwotest.js`, `rvfthreetest.js` and
  `tests/devqsim/ftest.js`: tables of functions and their derivatives;
* `examples/p3d/lockpart.js`: the lock-part model script;
* `tests/devqsim/stest2.js`: the call object that reschedules itself.

The expression interpreter that the specification describes is not among the
scripts; it is modelled from the specification in the namespace `Esp`.

Script values are modelled by `JSVal`, numbers by `Double`, method calls on
host objects by lists of events, and a `throw` by an explicit `Thrown` result.
The conversions between numbers and strings are the script engine's and are
parameters (`Engine`).
-/

/-! ## Numbers -/

/-- The numbers of the scripts: IEEE 754 binary64 values.  A finite value is
given by the rational number it stands for; the two zeros, which no operation
used here tells apart, are one value. -/
inductive Double where
  | fin (q : ℚ)
  | posInf
  | negInf
  | nan
deriving DecidableEq, Repr

namespace Double

/-- The power `2 ^ k` for an integer `k`. -/
def pow2 (k : Int) : ℚ :=
  if 0 ≤ k then ((2 ^ k.toNat : Nat) : ℚ) else 1 / ((2 ^ (-k).toNat : Nat) : ℚ)

/-- The position of the leading binary digit of `n`: the largest `k` with
`2 ^ k ≤ n` for `0 < n`, and 0 for `n = 0`.  The first argument bounds the
number of halvings. -/
def log2 : Nat → Nat → Nat
  | 0, _ => 0
  | fuel + 1, n => if n < 2 then 0 else log2 fuel (n / 2) + 1

/-- The binary exponent of a rational `q ≠ 0`: the integer `e` with
`2 ^ e ≤ |q| < 2 ^ (e + 1)`. -/
def floorLog2 (q : ℚ) : Int :=
  let k : Int := (log2 q.num.natAbs q.num.natAbs : Int) - (log2 q.den q.den : Int)
  if pow2 k ≤ (if q < 0 then -q else q) then k else k - 1

/-- The integer nearest to `x`, the even one of the two when `x` lies half way
between them. -/
def roundHalfEven (x : ℚ) : Int :=
  let f := x.num / (x.den : Int)
  let r := x.num % (x.den : Int)
  if 2 * r < x.den then f
  else if (x.den : Int) < 2 * r then f + 1
  else if f % 2 = 0 then f else f + 1

/-- Rounding of an exact result to binary64, to the nearest value and to the
even significand on a tie: a value with binary exponent `e` is rounded to a
multiple of `2 ^ (e - 52)`, one below `2 ^ (-1022)` to a multiple of
`2 ^ (-1074)`, and a result that reaches `2 ^ 1024` in size is infinite. -/
def round (q : ℚ) : Double :=
  if q = 0 then fin 0
  else
    let e := max (floorLog2 q) (-1022)
    let ulp := pow2 (e - 52)
    let r : ℚ := (roundHalfEven (q / ulp) : ℚ) * ulp
    if pow2 1024 ≤ r then posInf
    else if r ≤ -pow2 1024 then negInf
    else fin r

/-- The operator `+` on numbers. -/
def add : Double → Double → Double
  | fin a, fin b => round (a + b)
  | nan, _ => nan
  | _, nan => nan
  | posInf, negInf => nan
  | negInf, posInf => nan
  | posInf, _ => posInf
  | _, posInf => posInf
  | negInf, _ => negInf
  | _, negInf => negInf

/-- The operator `*` on numbers. -/
def mul : Double → Double → Double
  | fin a, fin b => round (a * b)
  | nan, _ => nan
  | _, nan => nan
  | fin a, posInf => if a = 0 then nan else if 0 < a then posInf else negInf
  | fin a, negInf => if a = 0 then nan else if 0 < a then negInf else posInf
  | posInf, fin b => if b = 0 then nan else if 0 < b then posInf else negInf
  | negInf, fin b => if b = 0 then nan else if 0 < b then negInf else posInf
  | posInf, posInf => posInf
  | posInf, negInf => negInf
  | negInf, posInf => negInf
  | negInf, negInf => posInf

/-- The order of numbers: NaN is below and above nothing. -/
def lt : Double → Double → Prop
  | fin a, fin b => a < b
  | fin _, posInf => True
  | negInf, fin _ => True
  | negInf, posInf => True
  | _, _ => False

/-- Equality of numbers, as `==` and `===` test it: NaN is equal to nothing,
itself included. -/
def numEq : Double → Double → Bool
  | nan, _ => false
  | _, nan => false
  | a, b => a == b

instance : Zero Double := ⟨fin 0⟩

instance : One Double := ⟨fin 1⟩

instance : NatCast Double := ⟨fun n => round n⟩

instance : Add Double := ⟨add⟩

instance : Mul Double := ⟨mul⟩

instance : LT Double := ⟨lt⟩

instance (a b : Double) : Decidable (a < b) := by
  show Decidable (lt a b)
  unfold lt
  split <;> infer_instance

end Double

/-! ## Script values -/

/-- Script values.  `host name` is a reference to a host (Java) object,
identified by the text its `toString` gives. -/
inductive JSVal where
  | undefined
  | null
  | bool (b : Bool)
  | num (n : Double)
  | str (s : String)
  | host (name : String)
deriving DecidableEq, Repr

/-- What a script throws. -/
inductive Thrown where
  /-- A string: `throw "text"`. -/
  | str (s : String)
  /-- An error object: `throw Error(msg)`. -/
  | error (msg : String)
  /-- Raised by the engine when a property of `null` or `undefined` is read. -/
  | typeError
deriving DecidableEq, Repr

/-- The conversions between numbers and strings.  They belong to the script
engine, not to the scripts: `numToStr n` is the string form of the number `n`
(as in `"text" + n`), and `strToNum s` is the number that the string `s`
stands for when it is compared with a number or a boolean (NaN when it stands
for none).  They are parameters of the model, and what is proved of the
scripts is proved for every engine. -/
structure Engine where
  numToStr : Double → String
  strToNum : String → Double

/-- An engine for the closed instances of the theorems.  Those instances
compare names such as "MOVE_TO" with strings and with host objects, which are
compared as strings, and print no number: they consult no conversion and are
the same for every engine.  This one reads every string as NaN. -/
def sampleEngine : Engine where
  numToStr := fun _ => "NaN"
  strToNum := fun _ => Double.nan

namespace JSVal

/-- The result of `typeof v`. -/
def typeOf : JSVal → String
  | undefined => "undefined"
  | null => "object"
  | bool _ => "boolean"
  | num _ => "number"
  | str _ => "string"
  | host _ => "object"

/-- String conversion, as done by `"text" + v`. -/
def toStr (E : Engine) : JSVal → String
  | undefined => "undefined"
  | null => "null"
  | bool true => "true"
  | bool false => "false"
  | num n => E.numToStr n
  | str s => s
  | host name => name

/-- Conversion of a host object to a primitive: its string form. -/
def toPrimitive : JSVal → JSVal
  | host name => str name
  | v => v

/-- Numeric operand of a comparison between primitives of different types:
`true` is 1, `false` is 0, a string is the number it stands for. -/
def numericOperand (E : Engine) : JSVal → Option Double
  | bool true => some 1
  | bool false => some 0
  | num n => some n
  | str s => some (E.strToNum s)
  | _ => none

/-- The `==` operator of the scripts (abstract equality): `null` and
`undefined` are equal to each other and to nothing else, values of one type
are compared directly, host objects by identity, a host object is compared
with a primitive through its string form, and primitives of different types
numerically. -/
def looseEq (E : Engine) (x y : JSVal) : Bool :=
  match x, y with
  | host a, host b => a == b
  | _, _ =>
    match toPrimitive x, toPrimitive y with
    | undefined, undefined => true
    | undefined, null => true
    | null, undefined => true
    | null, null => true
    | str a, str b => a == b
    | px, py =>
      match numericOperand E px, numericOperand E py with
      | some a, some b => Double.numEq a b
      | _, _ => false

end JSVal

/-! ## Runs: the calls made on host objects and the way a script ends -/

/-- Outcome of running script code: the events it caused, in order, and the
value it threw, if any. -/
structure Run (ε : Type) where
  calls : List ε
  thrown : Option Thrown
deriving DecidableEq, Repr

namespace Run

/-- Code that does nothing. -/
def done {ε : Type} : Run ε := ⟨[], none⟩

/-- One call on a host object. -/
def call {ε : Type} (e : ε) : Run ε := ⟨[e], none⟩

/-- A `throw`. -/
def throw {ε : Type} (t : Thrown) : Run ε := ⟨[], some t⟩

/-- Sequencing `a; b`: `b` runs only when `a` did not throw. -/
def andThen {ε : Type} (a b : Run ε) : Run ε :=
  match a.thrown with
  | some t => ⟨a.calls, some t⟩
  | none => ⟨a.calls ++ b.calls, b.thrown⟩

end Run

/-! ## `tests/geom/pbtest.js` -/

namespace PbTest

open JSVal

/-- Control points made by `pb.createCPointClose()`, `pb.createCPointMoveTo(x, y)`,
`pb.createCPointSegEnd(x, y)`, `pb.createCPointControl(x, y)` and
`pb.createCPointSpline(x, y)`. -/
inductive CPoint where
  | close
  | moveTo (x y : JSVal)
  | segEnd (x y : JSVal)
  | control (x y : JSVal)
  | spline (x y : JSVal)
deriving DecidableEq, Repr

/-- The state-changing calls the two functions make on the path builder. -/
inductive Call where
  | initPath (wr : JSVal)
  | append (p : CPoint)
deriving DecidableEq, Repr

/-- The path builder `pb`, as far as the script reads it: the values returned
by its `constant...()` methods.  The class lives in the Java library, so the
values are parameters. -/
structure PathBuilder where
  constantCLOSE : JSVal
  constantMOVE_TO : JSVal
  constantSEG_END : JSVal
  constantCONTROL : JSVal
  constantSPLINE : JSVal
  constantWIND_EVEN_ODD : JSVal
  constantWIND_NON_ZERO : JSVal
deriving DecidableEq, Repr

/-- The constant `java.awt.geom.Path2D.WIND_EVEN_ODD` of the JDK. -/
def Path2D_WIND_EVEN_ODD : JSVal := num 0

/-- The constant `java.awt.geom.Path2D.WIND_NON_ZERO` of the JDK. -/
def Path2D_WIND_NON_ZERO : JSVal := num 1

/-- The argument `spec`: an array, with the value of its own `type` property
(`undefined` for an array literal) and its elements; or a value that is not an
array, with what its properties `type`, `x`, `y` read as; or `null` or
`undefined`. -/
inductive Spec where
  | arr (type : JSVal) (items : List Spec)
  | obj (type x y : JSVal)
  | nullish
deriving Repr

mutual
/-- The function `configPathBuilderAux(pb, spec)`. -/
def configPathBuilderAux (E : Engine) (pb : PathBuilder) : Spec → Run Call
  | .arr type items => configPathBuilderAux.loop E pb type items 0
  | .obj _ _ _ => Run.done
  | .nullish => Run.done
/-- The `for` loop of `configPathBuilderAux`, from index `i` on: `specType` is
`spec.type` and the list holds `spec[i]`, `spec[i+1]`, ...  The index is an
array index, which prints in decimal digits. -/
def configPathBuilderAux.loop (E : Engine) (pb : PathBuilder) (specType : JSVal) :
    List Spec → Nat → Run Call
  | [], _ => Run.done
  | .arr type items :: rest, i =>
    (configPathBuilderAux E pb (.arr type items)).andThen
      (configPathBuilderAux.loop E pb specType rest (i + 1))
  | .nullish :: _, _ => Run.throw .typeError
  | .obj type x y :: rest, i =>
    if looseEq E type (str "CLOSE") || looseEq E type pb.constantCLOSE then
      (Run.call (.append .close)).andThen
        (configPathBuilderAux.loop E pb specType rest (i + 1))
    else if looseEq E type (str "MOVE_TO") || looseEq E type pb.constantMOVE_TO then
      (Run.call (.append (.moveTo x y))).andThen
        (configPathBuilderAux.loop E pb specType rest (i + 1))
    else if looseEq E type (str "SEG_END") || looseEq E type pb.constantSEG_END then
      (Run.call (.append (.segEnd x y))).andThen
        (configPathBuilderAux.loop E pb specType rest (i + 1))
    else if looseEq E specType (str "CONTROL") || looseEq E type pb.constantCONTROL then
      (Run.call (.append (.control x y))).andThen
        (configPathBuilderAux.loop E pb specType rest (i + 1))
    else if looseEq E specType (str "SPLINE") || looseEq E type pb.constantSPLINE then
      (Run.call (.append (.spline x y))).andThen
        (configPathBuilderAux.loop E pb specType rest (i + 1))
    else
      Run.throw (.str ("bad type: " ++ toStr E specType ++ " at index " ++ toString i))
end

/-- The function `configurePathBuilder(pb, windingRule, spec)`. -/
def configurePathBuilder (E : Engine) (pb : PathBuilder) (windingRule : JSVal)
    (spec : Spec) : Run Call :=
  let wr : Except Thrown JSVal :=
    if looseEq E windingRule (str "WIND_EVEN_ODD") ||
        looseEq E windingRule Path2D_WIND_EVEN_ODD ||
        looseEq E windingRule pb.constantWIND_EVEN_ODD then
      .ok pb.constantWIND_EVEN_ODD
    else if looseEq E windingRule (str "WIND_NON_ZERO") ||
        looseEq E windingRule Path2D_WIND_NON_ZERO ||
        looseEq E windingRule pb.constantWIND_NON_ZERO then
      .ok pb.constantWIND_NON_ZERO
    else
      .error (.str ("bad winding rule: " ++ toStr E windingRule))
  match wr with
  | .error t => Run.throw t
  | .ok wr => (Run.call (.initPath wr)).andThen (configPathBuilderAux E pb spec)

/-- The variable `path1` of the test. -/
def path1 : Spec :=
  .arr undefined [.obj (str "MOVE_TO") (num 20) (num 30), .obj (str "SEG_END") (num 50) (num 60)]

/-- The variable `path2` of the test. -/
def path2 : Spec :=
  .arr undefined [.obj (str "MOVE_TO") (num 120) (num 130), .obj (str "SEG_END") (num 150) (num 160)]

/-- The variable `pathspec` of the test. -/
def pathspec : Spec := .arr undefined [path1, path2]

/-- A path builder whose constants are host objects with string forms other
than the type names used in a `spec`. -/
def sampleBuilder : PathBuilder where
  constantCLOSE := host "CPointType#CLOSE"
  constantMOVE_TO := host "CPointType#MOVE_TO"
  constantSEG_END := host "CPointType#SEG_END"
  constantCONTROL := host "CPointType#CONTROL"
  constantSPLINE := host "CPointType#SPLINE"
  constantWIND_EVEN_ODD := host "WindingRule#WIND_EVEN_ODD"
  constantWIND_NON_ZERO := host "WindingRule#WIND_NON_ZERO"

end PbTest

/-! ## The `Math` object -/

deriving instance DecidableEq for Except

/-- The functions of the script engine's `Math` object that the scripts call,
over a number type `R`; `nan` is the number `Math.sin` and `Math.cos` return
for an argument that is `undefined`. -/
structure MathObj (R : Type) where
  sin : R → R
  cos : R → R
  nan : R

namespace MathObj

/-- The call `Math.sin(x)` for a variable `x` that holds a number or is
`undefined` (`none`). -/
def sinOf {R : Type} (M : MathObj R) : Option R → R
  | some r => M.sin r
  | none => M.nan

/-- The call `Math.cos(x)` for a variable `x` that holds a number or is
`undefined` (`none`). -/
def cosOf {R : Type} (M : MathObj R) : Option R → R
  | some r => M.cos r
  | none => M.nan

end MathObj

/-! ## `tests/math/rvfvatest.js` -/

namespace RvfVaTest

variable {R : Type} [Mul R] [Neg R]

/-- The top-level function `f(args)`.  The argument `args` is an array of
numbers (`some`), or `null` or `undefined` (`none`), of which no element can
be read. -/
def f (M : MathObj R) (args : Option (List R)) : Except Thrown R :=
  match args with
  | none => .error .typeError
  | some a =>
    let x := a[0]?
    let y := a[1]?
    .ok (M.sinOf x * M.cosOf y)

/-- The top-level function `fp(i, args)`; the result `none` is the
`undefined` of falling off the end of the function. -/
def fp (M : MathObj R) (i : Int) (args : Option (List R)) : Except Thrown (Option R) :=
  match args with
  | none => .error .typeError
  | some a =>
    let x := a[0]?
    let y := a[1]?
    if i = 0 then
      .ok (some (M.cosOf x * M.cosOf y))
    else if i = 1 then
      .ok (some (-(M.sinOf x) * M.cosOf y))
    else
      .ok none

/-- The top-level function `fpp(i, j, args)`. -/
def fpp (M : MathObj R) (i j : Int) (args : Option (List R)) : Except Thrown (Option R) :=
  match args with
  | none => .error .typeError
  | some a =>
    let x := a[0]?
    let y := a[1]?
    if i = 0 ∧ j = 0 then
      .ok (some (-(M.sinOf x) * M.cosOf y))
    else if i = 0 ∧ j = 1 then
      .ok (some (-(M.cosOf x) * M.sinOf y))
    else if i = 1 ∧ j = 0 then
      .ok (some (-(M.cosOf x) * M.sinOf y))
    else if i = 1 ∧ j = 1 then
      .ok (some (-(M.sinOf x) * M.cosOf y))
    else
      .ok none

/-- The method `valueAt(args)` of the object given to `RealValuedFunctionVA`. -/
def valueAt (M : MathObj R) (args : Option (List R)) : Except Thrown R :=
  match args with
  | none => .error .typeError
  | some a =>
    let x := a[0]?
    let y := a[1]?
    .ok (M.sinOf x * M.cosOf y)

/-- The method `derivAt(i, args)` of the object given to `RealValuedFunctionVA`. -/
def derivAt (M : MathObj R) (i : Int) (args : Option (List R)) : Except Thrown R :=
  match args with
  | none => .error .typeError
  | some a =>
    let x := a[0]?
    let y := a[1]?
    if i = 0 then
      .ok (M.cosOf x * M.cosOf y)
    else if i = 1 then
      .ok (-(M.sinOf x) * M.cosOf y)
    else
      .error (.error "Illegal Argument")

/-- The method `secondDerivAt(i, j, args)` of the object given to
`RealValuedFunctionVA`. -/
def secondDerivAt (M : MathObj R) (i j : Int) (args : Option (List R)) : Except Thrown R :=
  match args with
  | none => .error .typeError
  | some a =>
    let x := a[0]?
    let y := a[1]?
    if i = 0 ∧ j = 0 then
      .ok (-(M.sinOf x) * M.cosOf y)
    else if i = 0 ∧ j = 1 then
      .ok (-(M.cosOf x) * M.sinOf y)
    else if i = 1 ∧ j = 0 then
      .ok (-(M.cosOf x) * M.sinOf y)
    else if i = 1 ∧ j = 1 then
      .ok (-(M.sinOf x) * M.cosOf y)
    else
      .error (.error "Illegal Argument")

end RvfVaTest

/-! ## `tests/math/rvftwotest.js` -/

namespace RvfTwoTest

variable {R : Type} [Mul R] [Neg R]

/-- The function `f(x,y)`. -/
def f (M : MathObj R) (x y : R) : R := M.sin x * M.cos y

/-- The function `f1(x,y)`. -/
def f1 (M : MathObj R) (x y : R) : R := M.cos x * M.cos y

/-- The function `f2(x, y)`. -/
def f2 (M : MathObj R) (x y : R) : R := -(M.sin x) * M.sin y

/-- The function `f11(x,y)`. -/
def f11 (M : MathObj R) (x y : R) : R := -(M.sin x) * M.cos y

/-- The function `f12(x,y)`. -/
def f12 (M : MathObj R) (x y : R) : R := -(M.cos x) * M.sin y

/-- The function `f21(x,y)`. -/
def f21 (M : MathObj R) (x y : R) : R := -(M.cos x) * M.sin y

/-- The function `f22(x,y)`. -/
def f22 (M : MathObj R) (x y : R) : R := -(M.sin x) * M.cos y

/-- The method `valueAt` of the object given to `RealValuedFunctionTwo`. -/
def valueAt (M : MathObj R) (x y : R) : R := M.sin x * M.cos y

/-- The method `deriv1At`. -/
def deriv1At (M : MathObj R) (x y : R) : R := M.cos x * M.cos y

/-- The method `deriv2At`. -/
def deriv2At (M : MathObj R) (x y : R) : R := -(M.sin x) * M.sin y

/-- The method `deriv11At`. -/
def deriv11At (M : MathObj R) (x y : R) : R := -(M.sin x) * M.cos y

/-- The method `deriv12At`. -/
def deriv12At (M : MathObj R) (x y : R) : R := -(M.cos x) * M.sin y

/-- The method `deriv21At`. -/
def deriv21At (M : MathObj R) (x y : R) : R := -(M.cos x) * M.sin y

/-- The method `deriv22At`. -/
def deriv22At (M : MathObj R) (x y : R) : R := -(M.sin x) * M.cos y

end RvfTwoTest

/-! ## `tests/devqsim/ftest.js`: the two-argument functions -/

namespace FTest

variable {R : Type} [Mul R] [Neg R]

/-- The function `f2(x,y)`. -/
def f2 (M : MathObj R) (x y : R) : R := M.sin x * M.cos y

/-- The function `f2d1(x,y)`. -/
def f2d1 (M : MathObj R) (x y : R) : R := M.cos x * M.cos y

/-- The function `f2d2(x,y)`. -/
def f2d2 (M : MathObj R) (x y : R) : R := -(M.sin x) * M.sin y

/-- The function `f2d11(x,y)`. -/
def f2d11 (M : MathObj R) (x y : R) : R := -(M.sin x) * M.cos y

/-- The function `f2d12(x,y)`. -/
def f2d12 (M : MathObj R) (x y : R) : R := -(M.cos x) * M.sin y

/-- The function `f2d21(x,y)`. -/
def f2d21 (M : MathObj R) (x y : R) : R := -(M.cos x) * M.sin y

/-- The function `f2d22(x,y)`. -/
def f2d22 (M : MathObj R) (x y : R) : R := -(M.sin x) * M.cos y

/-- The method `valueAt` of the object set on the factory `sf2f`. -/
def valueAt (M : MathObj R) (x y : R) : R := f2 M x y

/-- The method `deriv1At` of that object. -/
def deriv1At (M : MathObj R) (x y : R) : R := f2d1 M x y

/-- The method `deriv2At` of that object. -/
def deriv2At (M : MathObj R) (x y : R) : R := f2d2 M x y

/-- The method `deriv11At` of that object. -/
def deriv11At (M : MathObj R) (x y : R) : R := f2d11 M x y

/-- The method `deriv12At` of that object. -/
def deriv12At (M : MathObj R) (x y : R) : R := f2d12 M x y

/-- The method `deriv21At` of that object. -/
def deriv21At (M : MathObj R) (x y : R) : R := f2d21 M x y

/-- The method `deriv22At` of that object. -/
def deriv22At (M : MathObj R) (x y : R) : R := f2d22 M x y

end FTest

/-! ## `tests/math/rvfthreetest.js` -/

namespace RvfThreeTest

variable {R : Type} [Mul R] [Neg R] [Zero R]

/-- The function `f(x,y,z)`. -/
def f (M : MathObj R) (x y z : R) : R := M.sin x * M.cos y * z

/-- The function `f1(x,y,z)`. -/
def f1 (M : MathObj R) (x y z : R) : R := M.cos x * M.cos y * z

/-- The function `f2(x,y,z)`. -/
def f2 (M : MathObj R) (x y z : R) : R := -(M.sin x) * M.sin y * z

/-- The function `f3(x,y,z)`. -/
def f3 (M : MathObj R) (x y _z : R) : R := M.sin x * M.cos y

/-- The function `f11(x,y,z)`. -/
def f11 (M : MathObj R) (x y z : R) : R := -(M.sin x) * M.cos y * z

/-- The function `f12(x,y,z)`. -/
def f12 (M : MathObj R) (x y z : R) : R := -(M.cos x) * M.sin y * z

/-- The function `f13(x,y,z)`. -/
def f13 (M : MathObj R) (x y _z : R) : R := M.cos x * M.cos y

/-- The function `f21(x,y,z)`. -/
def f21 (M : MathObj R) (x y z : R) : R := -(M.cos x) * M.sin y * z

/-- The function `f22(x,y,z)`. -/
def f22 (M : MathObj R) (x y z : R) : R := -(M.sin x) * M.cos y * z

/-- The function `f23(x,y,z)`. -/
def f23 (M : MathObj R) (x y _z : R) : R := -(M.sin x) * M.sin y

/-- The function `f31(x,y,z)`. -/
def f31 (M : MathObj R) (x y _z : R) : R := M.cos x * M.cos y

/-- The function `f32(x,y,z)`. -/
def f32 (M : MathObj R) (x y _z : R) : R := -(M.sin x) * M.sin y

/-- The function `f33(x,y,z)`. -/
def f33 (_M : MathObj R) (_x _y _z : R) : R := 0

/-- The method `valueAt` of the object given to `RealValuedFunctionThree`. -/
def valueAt (M : MathObj R) (x y z : R) : R := M.sin x * M.cos y * z

/-- The method `deriv1At`. -/
def deriv1At (M : MathObj R) (x y z : R) : R := M.cos x * M.cos y * z

/-- The method `deriv2At`. -/
def deriv2At (M : MathObj R) (x y z : R) : R := -(M.sin x) * M.sin y * z

/-- The method `deriv3At`. -/
def deriv3At (M : MathObj R) (x y _z : R) : R := M.sin x * M.cos y

/-- The method `deriv11At`. -/
def deriv11At (M : MathObj R) (x y z : R) : R := -(M.sin x) * M.cos y * z

/-- The method `deriv12At`. -/
def deriv12At (M : MathObj R) (x y z : R) : R := -(M.cos x) * M.sin y * z

/-- The method `deriv13At`. -/
def deriv13At (M : MathObj R) (x y _z : R) : R := M.cos x * M.cos y

/-- The method `deriv21At`. -/
def deriv21At (M : MathObj R) (x y z : R) : R := -(M.cos x) * M.sin y * z

/-- The method `deriv22At`. -/
def deriv22At (M : MathObj R) (x y z : R) : R := -(M.sin x) * M.cos y * z

/-- The method `deriv23At`. -/
def deriv23At (M : MathObj R) (x y _z : R) : R := -(M.sin x) * M.sin y

/-- The method `deriv31At`. -/
def deriv31At (M : MathObj R) (x y _z : R) : R := M.cos x * M.cos y

/-- The method `deriv32At`. -/
def deriv32At (M : MathObj R) (x y _z : R) : R := -(M.sin x) * M.sin y

/-- The method `deriv33At`. -/
def deriv33At (_M : MathObj R) (_x _y _z : R) : R := 0

end RvfThreeTest

/-! ## Reference notions for the claims about derivatives -/

/-- A toy `Math` object over the integers, for evaluating the embedded
functions on concrete arguments. -/
def intMath : MathObj Int := ⟨fun x => x + 1, fun x => 2 * x, 0⟩

/-- Specification side: for functions of two real arguments, `g1` is the
partial derivative of `g` with respect to the argument of index `i`
(index 0 is the first argument, any other index the second). -/
def IsDerivWrt (i : Int) (g g1 : ℝ → ℝ → ℝ) : Prop :=
  ∀ x y, HasDerivAt (if i = 0 then fun t => g t y else fun t => g x t) (g1 x y)
    (if i = 0 then x else y)

/-- Specification side: for functions of three real arguments, `g1` is the
partial derivative of `g` with respect to argument number `k` (1, 2, or any
other number for the third). -/
def IsDerivWrt3 (k : Nat) (g g1 : ℝ → ℝ → ℝ → ℝ) : Prop :=
  ∀ x y z, HasDerivAt
    (if k = 1 then fun t => g t y z else if k = 2 then fun t => g x t z else fun t => g x y t)
    (g1 x y z) (if k = 1 then x else if k = 2 then y else z)

/-- Specification side: a table of two-argument functions is consistent with
its names: `d1`, `d2` are the first partial derivatives of `v`, `dIJ` is the
partial derivative with respect to argument `J` of `dI`, and `d12 = d21`. -/
def ConsistentTableTwo (v d1 d2 d11 d12 d21 d22 : ℝ → ℝ → ℝ) : Prop :=
  IsDerivWrt 0 v d1 ∧ IsDerivWrt 1 v d2 ∧
  IsDerivWrt 0 d1 d11 ∧ IsDerivWrt 1 d1 d12 ∧
  IsDerivWrt 0 d2 d21 ∧ IsDerivWrt 1 d2 d22 ∧
  d12 = d21

/-- Specification side: the first partial derivatives of a table of
three-argument functions. -/
def ConsistentFirstThree (v d1 d2 d3 : ℝ → ℝ → ℝ → ℝ) : Prop :=
  IsDerivWrt3 1 v d1 ∧ IsDerivWrt3 2 v d2 ∧ IsDerivWrt3 3 v d3

/-- Specification side: the second partial derivatives of a table of
three-argument functions: `dIJ` is the partial derivative with respect to
argument `J` of `dI`, `dIJ = dJI`, and `d33` is zero. -/
def ConsistentSecondThree (d1 d2 d3 d11 d12 d13 d21 d22 d23 d31 d32 d33 : ℝ → ℝ → ℝ → ℝ) :
    Prop :=
  IsDerivWrt3 1 d1 d11 ∧ IsDerivWrt3 2 d1 d12 ∧ IsDerivWrt3 3 d1 d13 ∧
  IsDerivWrt3 1 d2 d21 ∧ IsDerivWrt3 2 d2 d22 ∧ IsDerivWrt3 3 d2 d23 ∧
  IsDerivWrt3 1 d3 d31 ∧ IsDerivWrt3 2 d3 d32 ∧ IsDerivWrt3 3 d3 d33 ∧
  d12 = d21 ∧ d13 = d31 ∧ d23 = d32 ∧ (∀ x y z, d33 x y z = 0)

/-! ## `examples/p3d/lockpart.js` -/

namespace Lockpart

/-- The global variables the script reads before it assigns them: the output
stream `stl`, the directory accessor `da`, and the eight numeric parameters,
each holding a number or being `undefined` (`none`). -/
structure Globals (R : Type) where
  stl : JSVal
  da : JSVal
  z1 : Option R
  z2 : Option R
  w : Option R
  w1 : Option R
  w2 : Option R
  h : Option R
  h1 : Option R
  h2 : Option R

/-- The variables `z0`, `z1`, `z2`, `w`, `w1`, `w2`, `h`, `h1`, `h2` after the
parameter block. -/
structure Params (R : Type) where
  z0 : R
  z1 : R
  z2 : R
  w : R
  w1 : R
  w2 : R
  h : R
  h1 : R
  h2 : R
deriving DecidableEq, Repr

/-- The debugging flags `top`, `bottom`, `sides1`, `sides2`, `inside1`,
`inside2`, which the script text sets and a developer edits. -/
structure Flags where
  top : Bool
  bottom : Bool
  sides1 : Bool
  sides2 : Bool
  inside1 : Bool
  inside2 : Bool
deriving DecidableEq, Repr

/-- The flags as the script sets them. -/
def Flags.written : Flags := ⟨true, true, true, true, true, true⟩

/-- What the library answers to the script: the result of `m3d.printable(...)`
and of `a2d.estimateFrameCount(32.0)`. -/
structure Answers where
  printable : Bool
  maxframes : Nat
deriving DecidableEq, Repr

/-- The calls the script makes on the library, with the arguments that the
script computes.  The configuration array given to `createObject` is a
literal of the script and is left out. -/
inductive Event (R : Type) where
  | newModel3D
  | addH (z xlow ylow xhigh yhigh : R)
  | addFlippedH (z xlow ylow xhigh yhigh : R)
  | addV (xa ya za xb yb zb : R)
  | addFlippedV (xa ya za xb yb zb : R)
  | printable
  | writeSTL (title : String) (stl : JSVal)
  | createAnimation (arg3 arg4 arg5 arg6 : Nat)
  | setBackgroundColor
  | createFactory (className : String)
  | setModel
  | createObject (name : String)
  | estimateFrameCount (seconds : Nat)
  | initFrames (maxframes : Nat) (namePrefix : String) (extension : String) (da : JSVal)
  | scheduleFrames (first : Nat) (maxframes : Nat)
  | run
deriving DecidableEq, Repr

/-! The numbers of the script are a type `R` with 0, numerals, `+` and `*`:
with `R = Double` the definitions below compute as the script does, with the
numbers of a ring they compute in exact arithmetic. -/

variable {R : Type} [Zero R] [NatCast R] [Add R] [Mul R]

/-- The statement `if (typeof(v) == "undefined") v = d;` for a variable `v`
that holds a number or is `undefined` (`none`): the value of `v` after it. -/
def withDefault (v : Option R) (d : R) : R :=
  match v with
  | none => d
  | some r => r

/-- The parameter block: `z0 = 0.0` and the eight defaults. -/
def parameters (g : Globals R) : Params R where
  z0 := 0
  z1 := withDefault g.z1 10
  z2 := withDefault g.z2 20
  w := withDefault g.w 30
  w1 := withDefault g.w1 4
  w2 := withDefault g.w2 8
  h := withDefault g.h 60
  h1 := withDefault g.h1 4
  h2 := withDefault g.h2 8

/-- The variable `y1 = h1 + h2`. -/
def y1 (p : Params R) : R := p.h1 + p.h2

/-- The variable `y2 = y1 + h`. -/
def y2 (p : Params R) : R := y1 p + p.h

/-- The variable `y3 = y2 + h2`. -/
def y3 (p : Params R) : R := y2 p + p.h2

/-- The variable `y4 = y3 + h1`. -/
def y4 (p : Params R) : R := y3 p + p.h1

/-- The variable `x1 = w1 + 2 * w2 + w`. -/
def x1 (p : Params R) : R := p.w1 + 2 * p.w2 + p.w

/-- The variable `x2 = x1 + w1`. -/
def x2 (p : Params R) : R := x1 p + p.w1

/-- The variable `x3 = w1 + w2`. -/
def x3 (p : Params R) : R := p.w1 + p.w2

/-- The variable `x4 = x3 + w`. -/
def x4 (p : Params R) : R := x3 p + p.w

/-- The variable `x5 = x4 + w2`. -/
def x5 (p : Params R) : R := x4 p + p.w2

/-- The variable `x6 = x5 + w1`. -/
def x6 (p : Params R) : R := x5 p + p.w1

/-- The variable `verify`. -/
def verify (fl : Flags) : Bool :=
  fl.top && fl.bottom && fl.sides1 && fl.sides2 && fl.inside1 && fl.inside2

/-- The `Rectangle` calls of the ten `if` blocks that build the model, in
script order. -/
def rectangles (fl : Flags) (p : Params R) : List (Event R) :=
  let z0 := p.z0
  let z1 := p.z1
  let z2 := p.z2
  let w1 := p.w1
  let h1 := p.h1
  let y1 := y1 p
  let y2 := y2 p
  let y3 := y3 p
  let y4 := y4 p
  let x1 := x1 p
  let x2 := x2 p
  let x3 := x3 p
  let x4 := x4 p
  let x5 := x5 p
  let x6 := x6 p
  (if fl.top then
    [ .addH z1 0 0 w1 h1,
      .addH z1 0 h1 w1 y1,
      .addH z1 0 y1 w1 y2,
      .addH z1 0 y2 w1 y3,
      .addH z1 0 y3 w1 y4 ]
  else []) ++
  (if fl.bottom then
    [ .addFlippedH z0 0 0 w1 h1,
      .addFlippedH z0 0 h1 w1 y1,
      .addFlippedH z0 0 y1 w1 y2,
      .addFlippedH z0 0 y2 w1 y3,
      .addFlippedH z0 0 y3 w1 y4 ]
  else []) ++
  (if fl.top then
    [ .addH z1 x1 0 x2 h1,
      .addH z1 x1 h1 x2 y1,
      .addH z1 x1 y1 x2 y2,
      .addH z1 x1 y2 x2 y3,
      .addH z1 x1 y3 x2 y4 ]
  else []) ++
  (if fl.bottom then
    [ .addFlippedH z0 x1 0 x2 h1,
      .addFlippedH z0 x1 h1 x2 y1,
      .addFlippedH z0 x1 y1 x2 y2,
      .addFlippedH z0 x1 y2 x2 y3,
      .addFlippedH z0 x1 y3 x2 y4 ]
  else []) ++
  (if fl.top then
    [ .addH z1 w1 0 x3 h1,
      .addH z1 x3 0 x4 h1,
      .addH z1 x4 0 x5 h1,
      .addH z1 w1 y3 x3 y4,
      .addH z1 x3 y3 x4 y4,
      .addH z1 x4 y3 x5 y4,
      .addH z2 w1 h1 x3 y1,
      .addH z2 w1 y1 x3 y2,
      .addH z2 w1 y2 x3 y3,
      .addH z2 x4 h1 x5 y1,
      .addH z2 x4 y1 x5 y2,
      .addH z2 x4 y2 x5 y3,
      .addH z2 x3 h1 x4 y1,
      .addH z2 x3 y2 x4 y3 ]
  else []) ++
  (if fl.bottom then
    [ .addFlippedH z0 w1 0 x3 h1,
      .addFlippedH z0 x3 0 x4 h1,
      .addFlippedH z0 x4 0 x5 h1,
      .addFlippedH z0 w1 y3 x3 y4,
      .addFlippedH z0 x3 y3 x4 y4,
      .addFlippedH z0 x4 y3 x5 y4,
      .addFlippedH z0 w1 h1 x3 y1,
      .addFlippedH z0 w1 y1 x3 y2,
      .addFlippedH z0 w1 y2 x3 y3,
      .addFlippedH z0 x4 h1 x5 y1,
      .addFlippedH z0 x4 y1 x5 y2,
      .addFlippedH z0 x4 y2 x5 y3,
      .addFlippedH z0 x3 h1 x4 y1,
      .addFlippedH z0 x3 y2 x4 y3 ]
  else []) ++
  (if fl.sides1 then
    [ .addV 0 0 z0 w1 0 z1,
      .addV w1 0 z0 x3 0 z1,
      .addV w1 h1 z1 x3 h1 z2,
      .addV x3 0 z0 x4 0 z1,
      .addV x3 h1 z1 x4 h1 z2,
      .addV x4 0 z0 x5 0 z1,
      .addV x4 h1 z1 x5 h1 z2,
      .addV x5 0 z0 x6 0 z1,
      .addV x6 0 z0 x6 h1 z1,
      .addV x6 h1 z0 x6 y1 z1,
      .addV x5 h1 z1 x5 y1 z2,
      .addV x6 y1 z0 x6 y2 z1,
      .addV x5 y1 z1 x5 y2 z2,
      .addV x6 y2 z0 x6 y3 z1,
      .addV x5 y2 z1 x5 y3 z2,
      .addV x6 y3 z0 x6 y4 z1 ]
  else []) ++
  (if fl.sides2 then
    [ .addFlippedV 0 y4 z0 w1 y4 z1,
      .addFlippedV w1 y4 z0 x3 y4 z1,
      .addFlippedV w1 y3 z1 x3 y3 z2,
      .addFlippedV x3 y4 z0 x4 y4 z1,
      .addFlippedV x3 y3 z1 x4 y3 z2,
      .addFlippedV x4 y4 z0 x5 y4 z1,
      .addFlippedV x4 y3 z1 x5 y3 z2,
      .addFlippedV x5 y4 z0 x6 y4 z1,
      .addFlippedV 0 0 z0 0 h1 z1,
      .addFlippedV 0 h1 z0 0 y1 z1,
      .addFlippedV w1 h1 z1 w1 y1 z2,
      .addFlippedV 0 y1 z0 0 y2 z1,
      .addFlippedV w1 y1 z1 w1 y2 z2,
      .addFlippedV 0 y2 z0 0 y3 z1,
      .addFlippedV w1 y2 z1 w1 y3 z2,
      .addFlippedV 0 y3 z0 0 y4 z1 ]
  else []) ++
  (if fl.inside1 then
    [ .addV x3 y2 z0 x4 y2 z2,
      .addV x3 y1 z0 x3 y2 z2 ]
  else []) ++
  (if fl.inside2 then
    [ .addFlippedV x3 y1 z0 x4 y1 z2,
      .addFlippedV x4 y1 z0 x4 y2 z2 ]
  else [])

/-- The block `if (verify) { if (m3d.printable(...)) { m3d.writeSTL(...) } }`. -/
def writeIfVerified (ans : Answers) (fl : Flags) (stl : JSVal) : List (Event R) :=
  if verify fl then
    .printable :: (if ans.printable then [.writeSTL "Lockpart STL File" stl] else [])
  else []

/-- The animation part that ends the script. -/
def animation (ans : Answers) (da : JSVal) : List (Event R) :=
  [ .createAnimation 700 700 30000 1000,
    .setBackgroundColor,
    .createFactory "org.bzdev.p3d.Model3DViewFactory",
    .setModel,
    .createObject "view",
    .estimateFrameCount 32,
    .initFrames ans.maxframes "lp-" "png" da,
    .scheduleFrames 0 ans.maxframes,
    .run ]

/-- The script, for a given setting of the debugging flags.  The library
calls are taken not to throw. -/
def lockpartWith (ans : Answers) (fl : Flags) (g : Globals R) : Run (Event R) :=
  if g.stl.typeOf == "undefined" then
    Run.throw (.str "error: variable stl undefined")
  else if g.da.typeOf == "undefined" then
    Run.throw (.str "error: directory-accesssor variable da undefined")
  else
    ⟨.newModel3D :: rectangles fl (parameters g) ++ writeIfVerified ans fl g.stl ++
      animation ans g.da, none⟩

/-- The script as written. -/
def lockpart (ans : Answers) (g : Globals R) : Run (Event R) :=
  lockpartWith ans Flags.written g

/-- Globals of a caller that sets the stream, the accessor and the hole size
and leaves the other parameters to their defaults. -/
def sampleGlobals : Globals Int where
  stl := .host "stl"
  da := .host "da"
  z1 := none
  z2 := none
  w := some 25
  w1 := none
  w2 := none
  h := some 50
  h1 := none
  h2 := none

end Lockpart

/-! ## Reference notions for the claims about `pbtest.js` -/

namespace PbTest

open JSVal

/-- The arguments of the `initPath` calls in a list of calls, in order. -/
def initPathArgs : List Call → List JSVal
  | [] => []
  | .initPath wr :: cs => wr :: initPathArgs cs
  | .append _ :: cs => initPathArgs cs

/-- The points of the `append` calls in a list of calls, in order. -/
def appended : List Call → List CPoint
  | [] => []
  | .initPath _ :: cs => appended cs
  | .append p :: cs => p :: appended cs

/-- Whether `windingRule` passes the first test of `configurePathBuilder`. -/
def isEvenOdd (E : Engine) (pb : PathBuilder) (windingRule : JSVal) : Bool :=
  looseEq E windingRule (str "WIND_EVEN_ODD") ||
    looseEq E windingRule Path2D_WIND_EVEN_ODD ||
    looseEq E windingRule pb.constantWIND_EVEN_ODD

/-- Whether `windingRule` passes the second test of `configurePathBuilder`. -/
def isNonZero (E : Engine) (pb : PathBuilder) (windingRule : JSVal) : Bool :=
  looseEq E windingRule (str "WIND_NON_ZERO") ||
    looseEq E windingRule Path2D_WIND_NON_ZERO ||
    looseEq E windingRule pb.constantWIND_NON_ZERO

mutual
/-- Specification side: every leaf of the nested array is an entry whose
`type` is one of the strings "MOVE_TO", "SEG_END", "CLOSE". -/
def plainLeaves : Spec → Bool
  | .arr _ items => plainLeaves.all items
  | .obj type _ _ => type == str "MOVE_TO" || type == str "SEG_END" || type == str "CLOSE"
  | .nullish => false
/-- Specification side: `plainLeaves` for each element of an array. -/
def plainLeaves.all : List Spec → Bool
  | [] => true
  | s :: rest => plainLeaves s && plainLeaves.all rest
end

mutual
/-- Specification side: the control points of the leaves of a nested array,
depth first and left to right. -/
def leafPoints : Spec → List CPoint
  | .arr _ items => leafPoints.all items
  | .obj type x y =>
    if type = str "MOVE_TO" then [.moveTo x y]
    else if type = str "SEG_END" then [.segEnd x y]
    else if type = str "CLOSE" then [.close]
    else []
  | .nullish => []
/-- Specification side: `leafPoints` of the elements of an array, concatenated. -/
def leafPoints.all : List Spec → List CPoint
  | [] => []
  | s :: rest => leafPoints s ++ leafPoints.all rest
end

/-- The premise on the builder under which the string names select their own
kind: the constant of a kind tested earlier is not `==` to the name of a kind
tested later. -/
def NamesPassEarlierTests (E : Engine) (pb : PathBuilder) : Prop :=
  looseEq E (str "MOVE_TO") pb.constantCLOSE = false ∧
  looseEq E (str "SEG_END") pb.constantCLOSE = false ∧
  looseEq E (str "SEG_END") pb.constantMOVE_TO = false

instance (E : Engine) (pb : PathBuilder) : Decidable (NamesPassEarlierTests E pb) := by
  unfold NamesPassEarlierTests
  infer_instance

/-- The premise that string names and builder constants are distinct values:
no builder constant of the five kinds is `==` to any of the five names. -/
def NamesDistinctFromConstants (E : Engine) (pb : PathBuilder) : Prop :=
  ∀ name ∈ ["CLOSE", "MOVE_TO", "SEG_END", "CONTROL", "SPLINE"],
    ∀ c ∈ [pb.constantCLOSE, pb.constantMOVE_TO, pb.constantSEG_END, pb.constantCONTROL,
      pb.constantSPLINE], looseEq E (str name) c = false

instance (E : Engine) (pb : PathBuilder) : Decidable (NamesDistinctFromConstants E pb) := by
  unfold NamesDistinctFromConstants
  infer_instance

end PbTest

/-! ## Reference notions for the claims about `lockpart.js` -/

namespace Lockpart

/-- Whether an event is a call of `m3d.writeSTL`. -/
def Event.isWriteSTL {R : Type} : Event R → Bool
  | .writeSTL _ _ => true
  | _ => false

/-- Whether an event is a call of `Rectangle.addH` or `Rectangle.addFlippedH`. -/
def Event.isHorizontal {R : Type} : Event R → Bool
  | .addH _ _ _ _ _ => true
  | .addFlippedH _ _ _ _ _ => true
  | _ => false

/-- Specification side: a call of `Rectangle.addH` or `Rectangle.addFlippedH`
is given a rectangle that is not degenerate, `xlow < xhigh` and
`ylow < yhigh`; nothing is asked of other events. -/
def Event.NonDegenerate {R : Type} [LT R] : Event R → Prop
  | .addH _ xlow ylow xhigh yhigh => xlow < xhigh ∧ ylow < yhigh
  | .addFlippedH _ xlow ylow xhigh yhigh => xlow < xhigh ∧ ylow < yhigh
  | _ => True

/-- Parameters with the default sizes of the script. -/
def sampleParams : Params Int := ⟨0, 10, 20, 30, 4, 8, 60, 4, 8⟩

/-- Globals of a caller that sets `w1 = h1 = 1` and `w = w2 = h = h2 = 2^-53`
(the number `Math.pow(2, -53)`) and leaves `z1` and `z2` to their defaults. -/
def roundingGlobals : Globals Double where
  stl := .host "stl"
  da := .host "da"
  z1 := none
  z2 := none
  w := some (.fin (1 / 2 ^ 53))
  w1 := some (.fin 1)
  w2 := some (.fin (1 / 2 ^ 53))
  h := some (.fin (1 / 2 ^ 53))
  h1 := some (.fin 1)
  h2 := some (.fin (1 / 2 ^ 53))

end Lockpart

/-! ## `tests/devqsim/stest2.js`: the call object that reschedules itself -/

namespace STest2

/-- What the call object does that can be observed: an invocation of
`callable.call` (with the value of `count` on entry, where it prints the
time) and a call of `fifo.addCallObject(callable, ...)`. -/
inductive Event where
  | invoked (count : Int)
  | addCallObject
deriving DecidableEq, Repr

/-- The variable `count`, the number of scheduled invocations of
`callable.call` that the simulation has not made yet, and the events so far. -/
structure State where
  count : Int
  pending : Nat
  log : List Event
deriving DecidableEq, Repr

/-- The method `callable.call`: `if (count++ == 3) return;` compares the value
before the increment; otherwise the object is put on the queue again, which
schedules one more invocation. -/
def call (s : State) : State :=
  let old := s.count
  let s1 : State := { s with count := s.count + 1, log := s.log ++ [.invoked old] }
  if old = 3 then s1
  else { s1 with pending := s1.pending + 1, log := s1.log ++ [.addCallObject] }

/-- The state after `var count = 0` and `sim.scheduleCallObject(callable, 0.0)`:
one invocation is scheduled. -/
def start : State := ⟨0, 1, []⟩

/-- The call `sim.run()`, as far as the call object goes: while an invocation
is scheduled, make it.  The first argument bounds the number of invocations
made.  The task of the script that waits on the same queue does not read or
write `count` and is left out. -/
def run : Nat → State → State
  | 0, s => s
  | fuel + 1, s =>
    match s.pending with
    | 0 => s
    | n + 1 => run fuel (call { s with pending := n })

/-- The number of invocations of `callable.call` in a log. -/
def invocations : List Event → Nat
  | [] => 0
  | .invoked _ :: es => invocations es + 1
  | .addCallObject :: es => invocations es

/-- The number of calls of `fifo.addCallObject` in a log. -/
def enqueues : List Event → Nat
  | [] => 0
  | .invoked _ :: es => enqueues es
  | .addCallObject :: es => enqueues es + 1

end STest2

/-! ## Reference notions for the claim about the message of `configPathBuilderAux` -/

namespace PbTest

open JSVal

/-- The type `ty` of an entry passes none of the tests that read it: it is
`==` to none of the three names tested on the entry and to none of the five
builder constants. -/
def Unrecognised (E : Engine) (pb : PathBuilder) (ty : JSVal) : Prop :=
  looseEq E ty (str "CLOSE") = false ∧ looseEq E ty pb.constantCLOSE = false ∧
  looseEq E ty (str "MOVE_TO") = false ∧ looseEq E ty pb.constantMOVE_TO = false ∧
  looseEq E ty (str "SEG_END") = false ∧ looseEq E ty pb.constantSEG_END = false ∧
  looseEq E ty pb.constantCONTROL = false ∧ looseEq E ty pb.constantSPLINE = false

instance (E : Engine) (pb : PathBuilder) (ty : JSVal) : Decidable (Unrecognised E pb ty) := by
  unfold Unrecognised
  infer_instance

end PbTest

/-! ## The expression interpreter of the specification

The sources of the interpreter (`ExpressionParser` and its values) are not
among the scripts; the definitions of this section follow sections 3 to 8 of
the specification. -/

namespace Esp

/-- Modelled from the spec: the Value model of the interpreter (section 3),
whose implementation is not among the sources.  Numbers are the rationals,
standing for the doubles; objects, arrays and functions are references to
cells of the arena, which gives them reference semantics. -/
inductive Value where
  | undefined
  | num (q : ℚ)
  | str (s : String)
  | bool (b : Bool)
  | object (addr : Nat)
  | array (addr : Nat)
  | function (addr : Nat)
deriving DecidableEq, Repr

/-- Modelled from the spec: the error kinds of the missing interpreter
(section 7): SyntaxError, RuntimeError with its message, ResourceError. -/
inductive Error where
  | syntaxError
  | runtimeError (msg : String)
  | resourceError
deriving DecidableEq, Repr

mutual
/-- Modelled from the spec: the expressions of the Program representation of
the missing parser (sections 3 and 4.1): literals, identifiers, array and
object literals, the empty array `new []`, function literals, `if`/`else`
with block values, operators, member access, calls and assignment. -/
inductive Expr where
  | num (q : ℚ)
  | str (s : String)
  | var (name : String)
  | arrayLit (items : List Expr)
  | newArray
  | objectLit (props : List (String × Expr))
  | func (params : List String) (body : List Stmt)
  | ifElse (cond : Expr) (thenBlock elseBlock : List Stmt)
  | unary (op : String) (arg : Expr)
  | binary (op : String) (left right : Expr)
  | member (obj : Expr) (key : String)
  | index (obj idx : Expr)
  | call (fn : Expr) (args : List Expr)
  | assign (target value : Expr)
/-- Modelled from the spec: the statements of the Program representation of
the missing parser (section 4.1): `var` declarations, function declarations,
the range iteration `for (ident : low .. high) block`, and expression
statements. -/
inductive Stmt where
  | varDecl (name : String) (init : Expr)
  | funDecl (name : String) (params : List String) (body : List Stmt)
  | forRange (v : String) (lo hi : Expr) (body : List Stmt)
  | expr (e : Expr)
end

/-- Modelled from the spec: the tokens of the missing lexer (section 4.1):
numeric literals, string literals, identifiers, and keywords and punctuation
(`sym`). -/
inductive Token where
  | num (q : ℚ)
  | str (s : String)
  | ident (name : String)
  | sym (s : String)
deriving DecidableEq, Repr

/-- Modelled from the spec: the states of the missing lexer, which reads the
source one character at a time: between tokens, in an identifier, in the
digits of a number, after digits and one dot, in the digits after the decimal
point, in a string literal, after a punctuation character. -/
inductive LexState where
  | start
  | ident (acc : List Char)
  | int (n : Nat)
  | intDot (n : Nat)
  | frac (n scale : Nat)
  | str (acc : List Char)
  | sym (c : Char)
deriving DecidableEq, Repr

/-- Modelled from the spec: the keywords of the missing lexer (section 4.1,
and `new` from the range-iteration property of section 8). -/
def keywords : List String := ["var", "function", "if", "else", "for", "new"]

/-- Modelled from the spec: the punctuation characters of the missing lexer
that are tokens by themselves. -/
def singleSymbols : List Char :=
  ['(', ')', '\x7b', '\x7d', '[', ']', ',', ';', ':', '.', '=', '<', '>', '!', '+', '-', '*',
    '/']

/-- Modelled from the spec: the two-character tokens of the missing lexer:
comparison and logical operators and the range dots. -/
def doubleSymbols : List String := ["==", "!=", "<=", ">=", "&&", "||", ".."]

/-- Modelled from the spec: the characters of the missing lexer that can
begin a punctuation token. -/
def symbolChars : List Char := '&' :: '|' :: singleSymbols

/-- Modelled from the spec: the token of the missing lexer for a word, a
keyword or an identifier; the characters come in reverse order. -/
def identToken (acc : List Char) : Token :=
  let s := String.mk acc.reverse
  if s ∈ keywords then .sym s else .ident s

/-- Modelled from the spec: the value of a decimal digit in the missing
lexer. -/
def digitOf (c : Char) : Nat := c.toNat - 48

/-- Modelled from the spec: the tokens the missing lexer emits when a token
ends in a given state; an unterminated string literal and a lone `&` or `|`
are errors (`none`). -/
def flush : LexState → Option (List Token)
  | .start => some []
  | .ident acc => some [identToken acc]
  | .int n => some [.num n]
  | .intDot n => some [.num n, .sym "."]
  | .frac n scale => some [.num ((n : ℚ) / (10 : ℚ) ^ scale)]
  | .str _ => none
  | .sym c => if c ∈ singleSymbols then some [.sym (String.mk [c])] else none

/-- Modelled from the spec: the state of the missing lexer after the first
character of a token; a character that begins no token is an error. -/
def startWith (c : Char) : Option LexState :=
  if c.isWhitespace then some .start
  else if c.isAlpha || c == '_' then some (.ident [c])
  else if c.isDigit then some (.int (digitOf c))
  else if c == '"' then some (.str [])
  else if c ∈ symbolChars then some (.sym c)
  else none

/-- Modelled from the spec: in the missing lexer, ending the current token
and beginning the next one with the character `c`. -/
def flushThen (st : LexState) (c : Char) : Option (List Token × LexState) :=
  match flush st, startWith c with
  | some ts, some st1 => some (ts, st1)
  | _, _ => none

/-- Modelled from the spec: one step of the missing lexer.  After the digits
of a number, one dot followed by a digit begins the decimals and two dots are
the range token, so that `0..10` reads as a range. -/
def step (st : LexState) (c : Char) : Option (List Token × LexState) :=
  match st with
  | .start => flushThen st c
  | .str acc =>
    if c == '"' then some ([.str (String.mk acc.reverse)], .start) else some ([], .str (c :: acc))
  | .ident acc =>
    if c.isAlphanum || c == '_' then some ([], .ident (c :: acc)) else flushThen st c
  | .int n =>
    if c.isDigit then some ([], .int (10 * n + digitOf c))
    else if c == '.' then some ([], .intDot n)
    else flushThen st c
  | .intDot n =>
    if c.isDigit then some ([], .frac (10 * n + digitOf c) 1)
    else if c == '.' then some ([.num n, .sym ".."], .start)
    else flushThen st c
  | .frac n scale =>
    if c.isDigit then some ([], .frac (10 * n + digitOf c) (scale + 1)) else flushThen st c
  | .sym p =>
    if String.mk [p, c] ∈ doubleSymbols then some ([.sym (String.mk [p, c])], .start)
    else flushThen st c

/-- Modelled from the spec: the missing lexer run over the characters of a
source text from a given state. -/
def lexFrom : LexState → List Char → Option (List Token)
  | st, [] => flush st
  | st, c :: cs =>
    match step st c with
    | none => none
    | some (ts, st1) => (lexFrom st1 cs).map (fun rest => ts ++ rest)

/-- Modelled from the spec: the missing lexer (section 4.1): the tokens of a
source text, or `none` for an unknown character or an unterminated literal. -/
def tokenize (src : String) : Option (List Token) := lexFrom .start src.toList

/-- Modelled from the spec: the binary operators of the missing parser by
precedence level ("conventional precedence", section 4.1), loosest first:
logical or, logical and, equality, ordering, additive, multiplicative. -/
def operatorsAt : Nat → List String
  | 0 => ["||"]
  | 1 => ["&&"]
  | 2 => ["==", "!="]
  | 3 => ["<", "<=", ">", ">="]
  | 4 => ["+", "-"]
  | 5 => ["*", "/"]
  | _ => []

/-- Modelled from the spec: what the missing parser accepts on the left of
`=`: a variable, a member access or an indexed access. -/
def isTarget : Expr → Bool
  | .var _ => true
  | .member _ _ => true
  | .index _ _ => true
  | _ => false

/-- Modelled from the spec: the parameter list of a function in the missing
parser, after the opening parenthesis: identifiers separated by commas. -/
def parseParams : List Token → Option (List String × List Token)
  | .sym ")" :: ts => some ([], ts)
  | .ident x :: .sym ")" :: ts => some ([x], ts)
  | .ident x :: .sym "," :: ts =>
    match parseParams ts with
    | some (xs, rest) => if xs.isEmpty then none else some (x :: xs, rest)
    | none => none
  | _ => none

mutual
/-- Modelled from the spec: the missing parser (section 4.1), by recursive
descent; the first argument bounds the depth of the descent.  An expression
is an assignment or a binary expression. -/
def parseExpr : Nat → List Token → Option (Expr × List Token)
  | 0, _ => none
  | fuel + 1, ts => do
    let (lhs, ts1) ← parseBinary fuel 0 ts
    match ts1 with
    | .sym "=" :: ts2 =>
      if isTarget lhs then do
        let (rhs, ts3) ← parseExpr fuel ts2
        pure (.assign lhs rhs, ts3)
      else none
    | _ => pure (lhs, ts1)
/-- Modelled from the spec: binary expressions of the missing parser at a
precedence level; above the last level come the unary expressions. -/
def parseBinary : Nat → Nat → List Token → Option (Expr × List Token)
  | 0, _, _ => none
  | fuel + 1, level, ts =>
    if 6 ≤ level then parseUnary fuel ts
    else do
      let (l, ts1) ← parseBinary fuel (level + 1) ts
      parseBinaryRest fuel level l ts1
/-- Modelled from the spec: the operators and right operands that follow a
left operand at one precedence level, associating to the left. -/
def parseBinaryRest : Nat → Nat → Expr → List Token → Option (Expr × List Token)
  | 0, _, _, _ => none
  | fuel + 1, level, l, ts =>
    match ts with
    | .sym op :: ts1 =>
      if op ∈ operatorsAt level then do
        let (r, ts2) ← parseBinary fuel (level + 1) ts1
        parseBinaryRest fuel level (.binary op l r) ts2
      else pure (l, ts)
    | _ => pure (l, ts)
/-- Modelled from the spec: unary minus and logical not in the missing
parser, then a primary expression with its postfix operations. -/
def parseUnary : Nat → List Token → Option (Expr × List Token)
  | 0, _ => none
  | fuel + 1, ts =>
    match ts with
    | .sym "-" :: ts1 => do
      let (e, ts2) ← parseUnary fuel ts1
      pure (.unary "-" e, ts2)
    | .sym "!" :: ts1 => do
      let (e, ts2) ← parseUnary fuel ts1
      pure (.unary "!" e, ts2)
    | _ => do
      let (e, ts1) ← parsePrimary fuel ts
      parsePostfix fuel e ts1
/-- Modelled from the spec: member access with `.` and `[]` and call
expressions in the missing parser. -/
def parsePostfix : Nat → Expr → List Token → Option (Expr × List Token)
  | 0, _, _ => none
  | fuel + 1, e, ts =>
    match ts with
    | .sym "." :: .ident key :: ts1 => parsePostfix fuel (.member e key) ts1
    | .sym "[" :: ts1 => do
      let (idx, ts2) ← parseExpr fuel ts1
      match ts2 with
      | .sym "]" :: ts3 => parsePostfix fuel (.index e idx) ts3
      | _ => none
    | .sym "(" :: ts1 => do
      let (args, ts2) ← parseArgs fuel ")" ts1
      parsePostfix fuel (.call e args) ts2
    | _ => pure (e, ts)
/-- Modelled from the spec: the primary expressions of the missing parser:
literals, identifiers, parentheses, `new []`, array and object literals,
function literals, and `if`/`else` with block values. -/
def parsePrimary : Nat → List Token → Option (Expr × List Token)
  | 0, _ => none
  | fuel + 1, ts =>
    match ts with
    | .num q :: ts1 => pure (.num q, ts1)
    | .str s :: ts1 => pure (.str s, ts1)
    | .ident x :: ts1 => pure (.var x, ts1)
    | .sym "(" :: ts1 => do
      let (e, ts2) ← parseExpr fuel ts1
      match ts2 with
      | .sym ")" :: ts3 => pure (e, ts3)
      | _ => none
    | .sym "new" :: .sym "[" :: .sym "]" :: ts1 => pure (.newArray, ts1)
    | .sym "[" :: ts1 => do
      let (items, ts2) ← parseArgs fuel "]" ts1
      pure (.arrayLit items, ts2)
    | .sym "\x7b" :: ts1 => do
      let (props, ts2) ← parseProps fuel ts1
      pure (.objectLit props, ts2)
    | .sym "function" :: .sym "(" :: ts1 => do
      let (params, ts2) ← parseParams ts1
      let (body, ts3) ← parseBlock fuel ts2
      pure (.func params body, ts3)
    | .sym "if" :: .sym "(" :: ts1 => do
      let (c, ts2) ← parseExpr fuel ts1
      match ts2 with
      | .sym ")" :: ts3 => do
        let (thenBlock, ts4) ← parseBlock fuel ts3
        match ts4 with
        | .sym "else" :: ts5 => do
          let (elseBlock, ts6) ← parseBlock fuel ts5
          pure (.ifElse c thenBlock elseBlock, ts6)
        | _ => pure (.ifElse c thenBlock [], ts4)
      | _ => none
    | _ => none
/-- Modelled from the spec: a list of expressions separated by commas up to
a closing token, in the missing parser. -/
def parseArgs : Nat → String → List Token → Option (List Expr × List Token)
  | 0, _, _ => none
  | fuel + 1, close, ts =>
    match ts with
    | .sym c :: ts1 => if c = close then pure ([], ts1) else parseArgsMore fuel close ts
    | _ => parseArgsMore fuel close ts
/-- Modelled from the spec: a list of at least one expression up to a closing
token, in the missing parser. -/
def parseArgsMore : Nat → String → List Token → Option (List Expr × List Token)
  | 0, _, _ => none
  | fuel + 1, close, ts => do
    let (e, ts1) ← parseExpr fuel ts
    match ts1 with
    | .sym c :: ts2 =>
      if c = close then pure ([e], ts2)
      else if c = "," then do
        let (es, ts3) ← parseArgsMore fuel close ts2
        pure (e :: es, ts3)
      else none
    | _ => none
/-- Modelled from the spec: the properties `key: expr, ...` of an object
literal up to the closing brace, in the missing parser. -/
def parseProps : Nat → List Token → Option (List (String × Expr) × List Token)
  | 0, _ => none
  | fuel + 1, ts =>
    match ts with
    | .sym "\x7d" :: ts1 => pure ([], ts1)
    | _ => parsePropsMore fuel ts
/-- Modelled from the spec: at least one property of an object literal; the
key is an identifier or a string literal. -/
def parsePropsMore : Nat → List Token → Option (List (String × Expr) × List Token)
  | 0, _ => none
  | fuel + 1, ts =>
    match ts with
    | .ident key :: .sym ":" :: ts1 => parseProp fuel key ts1
    | .str key :: .sym ":" :: ts1 => parseProp fuel key ts1
    | _ => none
/-- Modelled from the spec: the value of a property of an object literal and
the properties after it. -/
def parseProp : Nat → String → List Token → Option (List (String × Expr) × List Token)
  | 0, _, _ => none
  | fuel + 1, key, ts => do
    let (e, ts1) ← parseExpr fuel ts
    match ts1 with
    | .sym "\x7d" :: ts2 => pure ([(key, e)], ts2)
    | .sym "," :: ts2 => do
      let (ps, ts3) ← parsePropsMore fuel ts2
      pure ((key, e) :: ps, ts3)
    | _ => none
/-- Modelled from the spec: a block of statements in braces, in the missing
parser. -/
def parseBlock : Nat → List Token → Option (List Stmt × List Token)
  | 0, _ => none
  | fuel + 1, ts =>
    match ts with
    | .sym "\x7b" :: ts1 => do
      let (body, ts2) ← parseStmts fuel ts1
      match ts2 with
      | .sym "\x7d" :: ts3 => pure (body, ts3)
      | _ => none
    | _ => none
/-- Modelled from the spec: a sequence of statements of the missing parser,
up to a closing brace or the end of the text.  Statements are separated by
`;`; the separator may be left out after a statement that ends with a
block. -/
def parseStmts : Nat → List Token → Option (List Stmt × List Token)
  | 0, _ => none
  | fuel + 1, ts =>
    match ts with
    | [] => pure ([], [])
    | .sym "\x7d" :: _ => pure ([], ts)
    | .sym ";" :: ts1 => parseStmts fuel ts1
    | _ => do
      let (s, needsSeparator, ts1) ← parseStmt fuel ts
      match ts1 with
      | [] => pure ([s], [])
      | .sym "\x7d" :: _ => pure ([s], ts1)
      | .sym ";" :: ts2 => do
        let (ss, ts3) ← parseStmts fuel ts2
        pure (s :: ss, ts3)
      | _ =>
        if needsSeparator then none
        else do
          let (ss, ts3) ← parseStmts fuel ts1
          pure (s :: ss, ts3)
/-- Modelled from the spec: one statement of the missing parser, with whether
a separator must follow it. -/
def parseStmt : Nat → List Token → Option (Stmt × Bool × List Token)
  | 0, _ => none
  | fuel + 1, ts =>
    match ts with
    | .sym "var" :: .ident x :: .sym "=" :: ts1 => do
      let (e, ts2) ← parseExpr fuel ts1
      pure (.varDecl x e, true, ts2)
    | .sym "var" :: _ => none
    | .sym "function" :: .ident f :: .sym "(" :: ts1 => do
      let (params, ts2) ← parseParams ts1
      let (body, ts3) ← parseBlock fuel ts2
      pure (.funDecl f params body, false, ts3)
    | .sym "for" :: .sym "(" :: .ident v :: .sym ":" :: ts1 => do
      let (lo, ts2) ← parseExpr fuel ts1
      match ts2 with
      | .sym ".." :: ts3 => do
        let (hi, ts4) ← parseExpr fuel ts3
        match ts4 with
        | .sym ")" :: ts5 => do
          let (body, ts6) ← parseBlock fuel ts5
          pure (.forRange v lo hi body, false, ts6)
        | _ => none
      | _ => none
    | .sym "for" :: _ => none
    | _ => do
      let (e, ts1) ← parseExpr fuel ts
      pure (.expr e, true, ts1)
end

/-- Modelled from the spec: the contract `parse(sourceText) -> Program |
SyntaxError` of the missing lexer and parser (section 4.1): the program of a
source text, or `none` when the text matches no production of the grammar.
The depth allowed to the descent grows with the number of tokens. -/
def parseProgram (src : String) : Option (List Stmt) :=
  match tokenize src with
  | none => none
  | some ts =>
    match parseStmts (20 * (ts.length + 1)) ts with
    | some (prog, []) => some prog
    | _ => none

/-- Modelled from the spec: the cells of the arena of the missing
interpreter (sections 3 and 9): an object with its properties in insertion
order, an array with its elements, or a closure with its parameters, its body
and the environment it was defined in. -/
inductive Cell where
  | object (props : List (String × Value))
  | array (items : List Value)
  | closure (params : List String) (body : List Stmt) (env : Option Nat)

/-- Modelled from the spec: a frame of the Environment of the missing
interpreter (section 3): the frame of one function call, with its parent
(`none` is the global frame) and its bindings. -/
structure Frame where
  parent : Option Nat
  vars : List (String × Value)

/-- Modelled from the spec: an instance of the missing interpreter (section
3, lifecycle): the global environment, the frames of function calls and the
arena. -/
structure Interp where
  globals : List (String × Value)
  frames : List Frame
  heap : List Cell

/-- Modelled from the spec: construction of an instance of the missing
interpreter, with an empty global environment. -/
def Interp.create : Interp := ⟨[], [], []⟩

/-- Modelled from the spec: reading a key of the bindings of a frame or of
the properties of an object, in the missing interpreter. -/
def assocGet (l : List (String × Value)) (key : String) : Option Value :=
  match l with
  | [] => none
  | (k, v) :: rest => if k = key then some v else assocGet rest key

/-- Modelled from the spec: introducing or overwriting a key of the bindings
of a frame or of the properties of an object, in the missing interpreter. -/
def assocSet (l : List (String × Value)) (key : String) (val : Value) : List (String × Value) :=
  match l with
  | [] => [(key, val)]
  | (k, v) :: rest => if k = key then (k, val) :: rest else (k, v) :: assocSet rest key val

/-- Modelled from the spec: `set(index, value)` of the missing Array value,
with growth: writing beyond the current length extends the array and fills
the gap with Undefined (section 3). -/
def setIndex : List Value → Nat → Value → List Value
  | [], 0, v => [v]
  | [], n + 1, v => .undefined :: setIndex [] n v
  | _ :: xs, 0, v => v :: xs
  | x :: xs, n + 1, v => x :: setIndex xs n v

/-- Modelled from the spec: `setGlobalValue(name, value)` of the missing
interpreter (section 6). -/
def Interp.setGlobalValue (it : Interp) (name : String) (v : Value) : Interp :=
  { it with globals := assocSet it.globals name v }

/-- Modelled from the spec: a step of the missing evaluator: from a state of
the interpreter to a result or an error, and the state after it. -/
def Eval (α : Type) : Type := Interp → Except Error α × Interp

/-- Modelled from the spec: a step of the missing evaluator that returns a
value and leaves the state as it is. -/
def Eval.pure {α : Type} (a : α) : Eval α := fun s => (.ok a, s)

/-- Modelled from the spec: sequencing in the missing evaluator: an error of
the first step ends the evaluation, in the state the error occurred in. -/
def Eval.bind {α β : Type} (m : Eval α) (f : α → Eval β) : Eval β := fun s =>
  match m s with
  | (.ok a, s1) => f a s1
  | (.error e, s1) => (.error e, s1)

/-- Modelled from the spec: the steps of the missing evaluator form a monad. -/
instance : Monad Eval where
  pure := Eval.pure
  bind := Eval.bind

/-- Modelled from the spec: a step of the missing evaluator that fails. -/
def Eval.throw {α : Type} (e : Error) : Eval α := fun s => (.error e, s)

/-- Modelled from the spec: a step of the missing evaluator that fails with a
RuntimeError. -/
def Eval.fail {α : Type} (msg : String) : Eval α := Eval.throw (.runtimeError msg)

/-- Modelled from the spec: variable lookup in the missing interpreter:
"lookups walk outward from the innermost frame to the global frame" (section
3); the result is the frame that declares the name and the value. -/
def find? : Nat → Interp → Option Nat → String → Option (Option Nat × Value)
  | _, it, none, name => (assocGet it.globals name).map (fun v => (none, v))
  | 0, _, some _, _ => none
  | fuel + 1, it, some i, name =>
    match it.frames[i]? with
    | none => none
    | some fr =>
      match assocGet fr.vars name with
      | some v => some (some i, v)
      | none => find? fuel it fr.parent name

/-- Modelled from the spec: reading a variable in the missing evaluator; an
undefined variable is a RuntimeError (section 7). -/
def lookupVar (env : Option Nat) (name : String) : Eval Value := fun it =>
  match find? it.frames.length it env name with
  | some (_, v) => (.ok v, it)
  | none => (.error (.runtimeError ("undefined variable " ++ name)), it)

/-- Modelled from the spec: writing a binding of the frame of a function call
of the missing interpreter. -/
def setFrameVar (frames : List Frame) (i : Nat) (name : String) (v : Value) : List Frame :=
  match frames[i]? with
  | none => frames
  | some fr => frames.set i { fr with vars := assocSet fr.vars name v }

/-- Modelled from the spec: writing a binding of a given frame of the missing
interpreter, the global one or that of a function call. -/
def store (env : Option Nat) (name : String) (v : Value) (it : Interp) : Interp :=
  match env with
  | none => it.setGlobalValue name v
  | some i => { it with frames := setFrameVar it.frames i name v }

/-- Modelled from the spec: a declaration in the missing evaluator: "`var`
declarations always introduce/overwrite a binding in the current
function-local frame" (section 3). -/
def declare (env : Option Nat) (name : String) (v : Value) : Eval Unit := fun it =>
  (.ok (), store env name v it)

/-- Modelled from the spec: assignment to a variable in the missing
evaluator: it "mutates the nearest enclosing frame that declares it"; for a
name that is not declared the strict policy of section 9 is taken, a
RuntimeError. -/
def assignVar (env : Option Nat) (name : String) (v : Value) : Eval Unit := fun it =>
  match find? it.frames.length it env name with
  | some (owner, _) => (.ok (), store owner name v it)
  | none => (.error (.runtimeError ("assignment to undeclared variable " ++ name)), it)

/-- Modelled from the spec: creating an object, array or function value in
the arena of the missing interpreter. -/
def alloc (c : Cell) : Eval Nat := fun it =>
  (.ok it.heap.length, { it with heap := it.heap ++ [c] })

/-- Modelled from the spec: reading the cell of a reference in the arena of
the missing interpreter. -/
def readCell (addr : Nat) : Eval Cell := fun it =>
  match it.heap[addr]? with
  | some c => (.ok c, it)
  | none => (.error (.runtimeError "dangling reference"), it)

/-- Modelled from the spec: writing the cell of a reference in the arena of
the missing interpreter; every alias of the reference sees the change. -/
def writeCell (addr : Nat) (c : Cell) : Eval Unit := fun it =>
  (.ok (), { it with heap := it.heap.set addr c })

/-- Modelled from the spec: a function call of the missing evaluator pushes
"a new child environment parented at the function's captured defining
environment" (section 4.2). -/
def newFrame (parent : Option Nat) (vars : List (String × Value)) : Eval Nat := fun it =>
  (.ok it.frames.length, { it with frames := it.frames ++ [⟨parent, vars⟩] })

/-- Modelled from the spec: binding of parameters in the missing evaluator:
positionally, "missing arguments bind to Undefined; extra arguments are
ignored" (section 4.2). -/
def bindParams : List String → List Value → List (String × Value)
  | [], _ => []
  | p :: ps, [] => (p, .undefined) :: bindParams ps []
  | p :: ps, a :: as => (p, a) :: bindParams ps as

/-- Modelled from the spec: the text of a number when the missing evaluator
concatenates it to a string; a number that is not an integer is written as a
fraction, the decimal form of doubles being outside the model. -/
def numText (q : ℚ) : String :=
  if q.den = 1 then toString q.num else toString q.num ++ "/" ++ toString q.den

/-- Modelled from the spec: the text of a primitive value in a string
concatenation of the missing evaluator; references have none. -/
def text? : Value → Option String
  | .undefined => some "undefined"
  | .num q => some (numText q)
  | .str s => some s
  | .bool true => some "true"
  | .bool false => some "false"
  | _ => none

/-- Modelled from the spec: equality of the missing Value model, "defined
over same-tagged values" (section 4.3); references are equal when they are
the same reference; across tags there is no answer. -/
def equal? : Value → Value → Option Bool
  | .undefined, .undefined => some true
  | .num a, .num b => some (a == b)
  | .str a, .str b => some (a == b)
  | .bool a, .bool b => some (a == b)
  | .object a, .object b => some (a == b)
  | .array a, .array b => some (a == b)
  | .function a, .function b => some (a == b)
  | _, _ => none

/-- Modelled from the spec: ordering of the missing Value model, over two
numbers or two strings (section 4.3). -/
def less? : Value → Value → Option Bool
  | .num a, .num b => some (a < b)
  | .str a, .str b => some (a < b)
  | _, _ => none

/-- Modelled from the spec: the binary operators of the missing evaluator
other than the logical ones (section 4.3): arithmetic on numbers, `+` as
concatenation when either operand is a string, equality and ordering over
values of one tag; a mismatch of types is a RuntimeError (the strict policy
of section 9), and so is a division by zero, whose double result is outside
the model. -/
def binop (op : String) (l r : Value) : Except Error Value :=
  let mismatch : Except Error Value :=
    .error (.runtimeError ("operator " ++ op ++ ": type mismatch"))
  if op = "+" then
    match l, r with
    | .num a, .num b => .ok (.num (a + b))
    | _, _ =>
      match l, r, text? l, text? r with
      | .str _, _, some a, some b => .ok (.str (a ++ b))
      | _, .str _, some a, some b => .ok (.str (a ++ b))
      | _, _, _, _ => mismatch
  else if op = "-" then
    match l, r with
    | .num a, .num b => .ok (.num (a - b))
    | _, _ => mismatch
  else if op = "*" then
    match l, r with
    | .num a, .num b => .ok (.num (a * b))
    | _, _ => mismatch
  else if op = "/" then
    match l, r with
    | .num a, .num b =>
      if b = 0 then .error (.runtimeError "division by zero") else .ok (.num (a / b))
    | _, _ => mismatch
  else if op = "==" then
    match equal? l r with
    | some b => .ok (.bool b)
    | none => mismatch
  else if op = "!=" then
    match equal? l r with
    | some b => .ok (.bool (!b))
    | none => mismatch
  else if op = "<" then
    match less? l r with
    | some b => .ok (.bool b)
    | none => mismatch
  else if op = ">" then
    match less? r l with
    | some b => .ok (.bool b)
    | none => mismatch
  else if op = "<=" then
    match less? r l with
    | some b => .ok (.bool (!b))
    | none => mismatch
  else if op = ">=" then
    match less? l r with
    | some b => .ok (.bool (!b))
    | none => mismatch
  else mismatch

/-- Modelled from the spec: the unary operators of the missing evaluator,
minus on a number and not on a boolean. -/
def unop (op : String) (v : Value) : Except Error Value :=
  match v with
  | .num a =>
    if op = "-" then .ok (.num (-a))
    else .error (.runtimeError ("operator " ++ op ++ ": type mismatch"))
  | .bool b =>
    if op = "!" then .ok (.bool (!b))
    else .error (.runtimeError ("operator " ++ op ++ ": type mismatch"))
  | _ => .error (.runtimeError ("operator " ++ op ++ ": type mismatch"))

/-- Modelled from the spec: a result or an error as a step of the missing
evaluator. -/
def Eval.ofExcept {α : Type} : Except Error α → Eval α
  | .ok a => Eval.pure a
  | .error e => Eval.throw e

/-- Modelled from the spec: the array index a value stands for in the
missing evaluator: a number that is a natural number. -/
def indexOf? : Value → Option Nat
  | .num q => if q.den = 1 ∧ 0 ≤ q.num then some q.num.toNat else none
  | _ => none

/-- Modelled from the spec: the read `obj.key` of the missing evaluator:
"reading a missing object key yields Undefined" (section 4.2). -/
def readMember (obj : Value) (key : String) : Eval Value :=
  match obj with
  | .object addr => do
    let c ← readCell addr
    match c with
    | .object props => pure ((assocGet props key).getD .undefined)
    | _ => Eval.fail "not an object"
  | _ => Eval.fail "not an object"

/-- Modelled from the spec: the write `obj.key = v` of the missing
evaluator, through the object's mapping. -/
def writeMember (obj : Value) (key : String) (v : Value) : Eval Unit :=
  match obj with
  | .object addr => do
    let c ← readCell addr
    match c with
    | .object props => writeCell addr (.object (assocSet props key v))
    | _ => Eval.fail "not an object"
  | _ => Eval.fail "not an object"

/-- Modelled from the spec: the read `arr[idx]` of the missing evaluator:
"reading an array index beyond length yields Undefined" (section 4.2); an
object is indexed by a string key. -/
def readIndex (obj idx : Value) : Eval Value :=
  match obj, idx with
  | .array addr, _ =>
    match indexOf? idx with
    | some n => do
      let c ← readCell addr
      match c with
      | .array items => pure (items.getD n .undefined)
      | _ => Eval.fail "not an array"
    | none => Eval.fail "bad index"
  | .object _, .str key => readMember obj key
  | _, _ => Eval.fail "not indexable"

/-- Modelled from the spec: the write `arr[idx] = v` of the missing
evaluator: "writing an array index beyond current length extends the array"
(section 4.2). -/
def writeIndex (obj idx v : Value) : Eval Unit :=
  match obj, idx with
  | .array addr, _ =>
    match indexOf? idx with
    | some n => do
      let c ← readCell addr
      match c with
      | .array items => writeCell addr (.array (setIndex items n v))
      | _ => Eval.fail "not an array"
    | none => Eval.fail "bad index"
  | .object _, .str key => writeMember obj key v
  | _, _ => Eval.fail "not indexable"

mutual
/-- Modelled from the spec: the missing Evaluator (section 4.2), on
expressions, in the environment `env` (`none` is the global one).  The first
argument bounds the depth of the evaluation; when it is used up the result is
a ResourceError (section 7). -/
def evalExpr : Nat → Option Nat → Expr → Eval Value
  | 0, _, _ => Eval.throw .resourceError
  | fuel + 1, env, e =>
    match e with
    | .num q => pure (.num q)
    | .str s => pure (.str s)
    | .var x => lookupVar env x
    | .arrayLit items => do
      let vs ← evalArgs fuel env items
      let addr ← alloc (.array vs)
      pure (.array addr)
    | .newArray => do
      let addr ← alloc (.array [])
      pure (.array addr)
    | .objectLit props => do
      let ps ← evalProps fuel env props []
      let addr ← alloc (.object ps)
      pure (.object addr)
    | .func params body => do
      let addr ← alloc (.closure params body env)
      pure (.function addr)
    | .ifElse c thenBlock elseBlock => do
      let cv ← evalExpr fuel env c
      match cv with
      | .bool true => evalBlock fuel env thenBlock .undefined
      | .bool false => evalBlock fuel env elseBlock .undefined
      | _ => Eval.fail "condition is not a boolean"
    | .unary op a => do
      let v ← evalExpr fuel env a
      Eval.ofExcept (unop op v)
    | .binary op l r =>
      if op = "&&" then do
        let lv ← evalExpr fuel env l
        match lv with
        | .bool false => pure (.bool false)
        | .bool true => do
          let rv ← evalExpr fuel env r
          match rv with
          | .bool b => pure (.bool b)
          | _ => Eval.fail "operand is not a boolean"
        | _ => Eval.fail "operand is not a boolean"
      else if op = "||" then do
        let lv ← evalExpr fuel env l
        match lv with
        | .bool true => pure (.bool true)
        | .bool false => do
          let rv ← evalExpr fuel env r
          match rv with
          | .bool b => pure (.bool b)
          | _ => Eval.fail "operand is not a boolean"
        | _ => Eval.fail "operand is not a boolean"
      else do
        let lv ← evalExpr fuel env l
        let rv ← evalExpr fuel env r
        Eval.ofExcept (binop op lv rv)
    | .member obj key => do
      let ov ← evalExpr fuel env obj
      readMember ov key
    | .index obj idx => do
      let ov ← evalExpr fuel env obj
      let iv ← evalExpr fuel env idx
      readIndex ov iv
    | .call fn args => do
      let fv ← evalExpr fuel env fn
      let vs ← evalArgs fuel env args
      callFunction fuel fv vs
    | .assign target value =>
      match target with
      | .var x => do
        let v ← evalExpr fuel env value
        assignVar env x v
        pure v
      | .member obj key => do
        let ov ← evalExpr fuel env obj
        let v ← evalExpr fuel env value
        writeMember ov key v
        pure v
      | .index obj idx => do
        let ov ← evalExpr fuel env obj
        let iv ← evalExpr fuel env idx
        let v ← evalExpr fuel env value
        writeIndex ov iv v
        pure v
      | _ => Eval.fail "bad assignment target"
/-- Modelled from the spec: evaluation of the arguments of a call or the
elements of an array literal, left to right, in the missing evaluator. -/
def evalArgs : Nat → Option Nat → List Expr → Eval (List Value)
  | 0, _, _ => Eval.throw .resourceError
  | fuel + 1, env, es =>
    match es with
    | [] => pure []
    | e :: rest => do
      let v ← evalExpr fuel env e
      let vs ← evalArgs fuel env rest
      pure (v :: vs)
/-- Modelled from the spec: evaluation of the properties of an object
literal, left to right, in the missing evaluator; `acc` holds the properties
set so far. -/
def evalProps : Nat → Option Nat → List (String × Expr) → List (String × Value) →
    Eval (List (String × Value))
  | 0, _, _, _ => Eval.throw .resourceError
  | fuel + 1, env, ps, acc =>
    match ps with
    | [] => pure acc
    | (key, e) :: rest => do
      let v ← evalExpr fuel env e
      evalProps fuel env rest (assocSet acc key v)
/-- Modelled from the spec: a function call of the missing evaluator (section
4.2): a new frame parented at the captured environment, the parameters bound
positionally, the body executed, its value returned; calling a value that is
not a function is a RuntimeError. -/
def callFunction : Nat → Value → List Value → Eval Value
  | 0, _, _ => Eval.throw .resourceError
  | fuel + 1, fv, args =>
    match fv with
    | .function addr => do
      let c ← readCell addr
      match c with
      | .closure params body cenv => do
        let fr ← newFrame cenv (bindParams params args)
        evalBlock fuel (some fr) body .undefined
      | _ => Eval.fail "not a function"
    | _ => Eval.fail "not a function"
/-- Modelled from the spec: execution of a sequence of statements in the
missing evaluator; the result is "the value of the last evaluated expression
statement", `last` so far, Undefined at the start. -/
def evalBlock : Nat → Option Nat → List Stmt → Value → Eval Value
  | 0, _, _, _ => Eval.throw .resourceError
  | fuel + 1, env, ss, last =>
    match ss with
    | [] => pure last
    | s :: rest => do
      let v ← evalStmt fuel env s last
      evalBlock fuel env rest v
/-- Modelled from the spec: execution of one statement in the missing
evaluator; a declaration and a loop leave the value of the last expression
statement as it is.  A function declaration binds the name in the
environment the closure captures, so that the function can call itself. -/
def evalStmt : Nat → Option Nat → Stmt → Value → Eval Value
  | 0, _, _, _ => Eval.throw .resourceError
  | fuel + 1, env, s, last =>
    match s with
    | .varDecl x init => do
      let v ← evalExpr fuel env init
      declare env x v
      pure last
    | .funDecl f params body => do
      let addr ← alloc (.closure params body env)
      declare env f (.function addr)
      pure last
    | .forRange v lo hi body => do
      let lov ← evalExpr fuel env lo
      let hiv ← evalExpr fuel env hi
      match lov, hiv with
      | .num a, .num b => do
        forLoop fuel env v a b body
        pure last
      | _, _ => Eval.fail "range bounds are not numbers"
    | .expr e => evalExpr fuel env e
/-- Modelled from the spec: the range iteration of the missing evaluator: the
variable takes the values `low`, `low + 1`, ... below `high`, the upper bound
being exclusive (the property of section 8: `0..10` fills ten elements), and
is bound in the current frame. -/
def forLoop : Nat → Option Nat → String → ℚ → ℚ → List Stmt → Eval Unit
  | 0, _, _, _, _, _ => Eval.throw .resourceError
  | fuel + 1, env, v, i, hi, body =>
    if i < hi then do
      declare env v (.num i)
      let _ ← evalBlock fuel env body .undefined
      forLoop fuel env v (i + 1) hi body
    else pure ()
end

/-- Modelled from the spec: execution of the Program of one `parse()` call by
the missing evaluator: "a sequence of statements evaluated in order" against
the global environment, each within the depth bound `fuel`. -/
def runProgram (fuel : Nat) : List Stmt → Value → Eval Value
  | [], last => pure last
  | s :: rest, last => do
    let v ← evalStmt fuel none s last
    runProgram fuel rest v

/-- Modelled from the spec: `parse(sourceText) -> Value` of the missing
interpreter (section 6): the source is lexed, parsed and evaluated against
the global environment of the instance; it fails with a SyntaxError for a
text that matches no production, which leaves the instance as it was, and
with a RuntimeError (or a ResourceError at the depth bound `fuel`) for a
failing evaluation.  The second component is the instance after the call. -/
def Interp.parse (fuel : Nat) (it : Interp) (src : String) : Except Error Value × Interp :=
  match parseProgram src with
  | none => (.error .syntaxError, it)
  | some prog => runProgram fuel prog .undefined it

/-- Modelled from the spec: the host's view of a resulting Array value of
the missing interpreter (`get(index)`, `size()`): its elements. -/
def Interp.arrayItems (it : Interp) (v : Value) : Option (List Value) :=
  match v with
  | .array addr =>
    match it.heap[addr]? with
    | some (.array items) => some items
    | _ => none
  | _ => none

/-- Modelled from the spec: the host's view of a global binding of the
missing interpreter. -/
def Interp.global? (it : Interp) (name : String) : Option Value := assocGet it.globals name

/-- The source text of the range-iteration property of section 8. -/
def rangeSource : String := "var array1 = new []; for (i: 0..10) {array1[i]=i*i}; array1"

/-- A source text of three statements, the last of which fails: `z` is not
declared. -/
def failingSource : String := "var x = 20; var y = x + 1; z = 3"

/-- A source text of plain prose. -/
def proseSource : String := "This is plain prose, not a program."

/-- Specification side: the instance `b` retains what `a` holds: every name
bound in the global environment of `a` is bound in that of `b`, and no cell
of the arena and no frame of `a` is missing in `b`. -/
def Extends (a b : Interp) : Prop :=
  (∀ name, (a.global? name).isSome = true → (b.global? name).isSome = true) ∧
  a.heap.length ≤ b.heap.length ∧ a.frames.length ≤ b.frames.length

/-- Specification side: a step of the evaluator retains the state it starts
from, whether it succeeds or fails. -/
structure Eval.Keeps {α : Type} (m : Eval α) : Prop where
  run : ∀ s, Extends s (m s).2

/-- Specification side: the step `m1` agrees with the step `m` from every
state in which `m` does not end with a ResourceError. -/
structure Eval.Below {α : Type} (m m1 : Eval α) : Prop where
  run : ∀ s, (m s).1 ≠ .error .resourceError → m1 s = m s

end Esp

/-! # Theorems -/

/-! ## Numbers: rounding at known values -/

namespace Double

/-- The numbers 1, `2^-53` and `1 + 2^-52` are binary64 values: rounding
leaves them as they are. -/
theorem round_of_double :
    round 1 = fin 1 ∧ round (1 / 2 ^ 53) = fin (1 / 2 ^ 53) ∧
    round (1 + 1 / 2 ^ 52) = fin (1 + 1 / 2 ^ 52) := by decide!

/-- The decimal 0.1 is the binary64 value `3602879701896397 * 2^-55`, and
`0.1 + 0.2` is `5404319552844596 * 2^-54`, the number above 0.3. -/
theorem round_tenth :
    round (1 / 10) = fin (3602879701896397 / 2 ^ 55) ∧
    round (1 / 10) + round (2 / 10) = fin (5404319552844596 / 2 ^ 54) ∧
    round (3 / 10) = fin (5404319552844595 / 2 ^ 54) := by decide!

/-- The sum `1 + 2^-53` lies half way between 1 and `1 + 2^-52` and rounds to
1, the neighbour with the even significand; `2^53 + 1` rounds to `2^53`. -/
theorem add_rounds_to_even :
    (fin 1 : Double) + fin (1 / 2 ^ 53) = fin 1 ∧
    (fin 1 : Double) + fin (3 / 2 ^ 53) = fin (1 + 2 / 2 ^ 52) ∧
    (fin (2 ^ 53) : Double) + 1 = fin (2 ^ 53) := by decide!

/-- Overflow and underflow: `2^1023 * 2` is infinite, and half of the least
positive value `2^-1074` is 0. -/
theorem mul_overflow_underflow :
    (fin (2 ^ 1023) : Double) * 2 = posInf ∧
    (fin (1 / 2 ^ 1074) : Double) * fin (1 / 2) = fin 0 := by decide!

end Double

/-! ## Sequencing -/

namespace Run

theorem andThen_call {ε : Type} (e : ε) (b : Run ε) :
    (call e).andThen b = ⟨e :: b.calls, b.thrown⟩ := rfl

theorem andThen_throw {ε : Type} (t : Thrown) (b : Run ε) :
    (throw t).andThen b = throw t := rfl

theorem andThen_done {ε : Type} (b : Run ε) : done.andThen b = b := rfl

theorem andThen_ok {ε : Type} (cs : List ε) (b : Run ε) :
    andThen ⟨cs, none⟩ b = ⟨cs ++ b.calls, b.thrown⟩ := rfl

end Run

/-! ## `pbtest.js` -/

namespace PbTest

open JSVal

theorem initPathArgs_append (a b : List Call) :
    initPathArgs (a ++ b) = initPathArgs a ++ initPathArgs b := by
  induction a with
  | nil => rfl
  | cons c cs ih => cases c <;> simp [initPathArgs, ih]

theorem initPathArgs_andThen_nil (a b : Run Call) (ha : initPathArgs a.calls = [])
    (hb : initPathArgs b.calls = []) : initPathArgs (a.andThen b).calls = [] := by
  unfold Run.andThen
  cases a.thrown <;> simp [initPathArgs_append, ha, hb]

mutual
/-- The helper `configPathBuilderAux` never calls `pb.initPath`. -/
theorem configPathBuilderAux_no_initPath (E : Engine) (pb : PathBuilder) :
    ∀ spec, initPathArgs (configPathBuilderAux E pb spec).calls = []
  | .arr type items => by
    rw [configPathBuilderAux]
    exact loop_no_initPath E pb type items 0
  | .obj _ _ _ => rfl
  | .nullish => rfl
/-- The loop of `configPathBuilderAux` never calls `pb.initPath`. -/
theorem loop_no_initPath (E : Engine) (pb : PathBuilder) (specType : JSVal) :
    ∀ items i, initPathArgs (configPathBuilderAux.loop E pb specType items i).calls = []
  | [], _ => rfl
  | .arr type its :: rest, i => by
    rw [configPathBuilderAux.loop]
    exact initPathArgs_andThen_nil _ _ (configPathBuilderAux_no_initPath E pb (.arr type its))
      (loop_no_initPath E pb specType rest (i + 1))
  | .nullish :: _, _ => rfl
  | .obj type x y :: rest, i => by
    have ih := loop_no_initPath E pb specType rest (i + 1)
    rw [configPathBuilderAux.loop]
    split_ifs <;> simp [Run.andThen_call, Run.throw, initPathArgs, ih]
end

/-- Two strings are `==` when they are the same string. -/
theorem looseEq_str_str (E : Engine) (a b : String) :
    looseEq E (str a) (str b) = (a == b) := rfl

/-- A number other than NaN is equal to itself. -/
theorem numEq_self (a : Double) (h : a ≠ .nan) : Double.numEq a a = true := by
  cases a <;> simp [Double.numEq] at h ⊢

/-- Every value other than NaN is `==` to itself. -/
theorem looseEq_self (E : Engine) (v : JSVal) (h : v ≠ num .nan) : looseEq E v v = true := by
  cases v with
  | undefined => rfl
  | null => rfl
  | bool b => cases b <;> simp [looseEq, toPrimitive, numericOperand, numEq_self, One.one]
  | num n =>
    have hn : n ≠ .nan := fun c => h (by rw [c])
    simp [looseEq, toPrimitive, numericOperand, numEq_self n hn]
  | str s => simp [looseEq, toPrimitive]
  | host name => simp [looseEq]

/-- C1: `configurePathBuilder(pb, windingRule, spec)` selects the winding rule
by its three tests in order.  When `windingRule` is `==` to "WIND_EVEN_ODD",
to `java.awt.geom.Path2D.WIND_EVEN_ODD` or to `pb.constantWIND_EVEN_ODD()`,
`pb.initPath` is called exactly once, first of all calls, with
`pb.constantWIND_EVEN_ODD()`; otherwise, when it is `==` to "WIND_NON_ZERO",
to `java.awt.geom.Path2D.WIND_NON_ZERO` or to `pb.constantWIND_NON_ZERO()`,
`pb.initPath` is called exactly once, first of all calls, with
`pb.constantWIND_NON_ZERO()`; otherwise the function throws
`"bad winding rule: " + windingRule` and has made no call of `pb.initPath`
or `pb.append`.  Each of the three values named in a test passes that test
(a builder constant that is NaN apart, which is `==` to nothing).  This holds
for every engine, whatever strings its numbers print as and whatever numbers
its strings read as. -/
theorem configurePathBuilder_winding_rule (E : Engine) (pb : PathBuilder)
    (windingRule : JSVal) (spec : Spec) :
    (isEvenOdd E pb (str "WIND_EVEN_ODD") = true ∧ isEvenOdd E pb Path2D_WIND_EVEN_ODD = true ∧
      (pb.constantWIND_EVEN_ODD ≠ num .nan → isEvenOdd E pb pb.constantWIND_EVEN_ODD = true)) ∧
    (isNonZero E pb (str "WIND_NON_ZERO") = true ∧ isNonZero E pb Path2D_WIND_NON_ZERO = true ∧
      (pb.constantWIND_NON_ZERO ≠ num .nan → isNonZero E pb pb.constantWIND_NON_ZERO = true)) ∧
    (isEvenOdd E pb windingRule = true →
      configurePathBuilder E pb windingRule spec =
          (Run.call (.initPath pb.constantWIND_EVEN_ODD)).andThen
            (configPathBuilderAux E pb spec) ∧
        initPathArgs (configurePathBuilder E pb windingRule spec).calls =
          [pb.constantWIND_EVEN_ODD]) ∧
    (isEvenOdd E pb windingRule = false → isNonZero E pb windingRule = true →
      configurePathBuilder E pb windingRule spec =
          (Run.call (.initPath pb.constantWIND_NON_ZERO)).andThen
            (configPathBuilderAux E pb spec) ∧
        initPathArgs (configurePathBuilder E pb windingRule spec).calls =
          [pb.constantWIND_NON_ZERO]) ∧
    (isEvenOdd E pb windingRule = false → isNonZero E pb windingRule = false →
      (configurePathBuilder E pb windingRule spec).thrown =
          some (.str ("bad winding rule: " ++ toStr E windingRule)) ∧
        (configurePathBuilder E pb windingRule spec).calls = []) := by
  have hno := configPathBuilderAux_no_initPath E pb spec
  have z0 : Path2D_WIND_EVEN_ODD ≠ num .nan := by decide
  have z1 : Path2D_WIND_NON_ZERO ≠ num .nan := by decide
  refine ⟨⟨?_, ?_, fun hc => ?_⟩, ⟨?_, ?_, fun hc => ?_⟩, fun h => ?_, fun h1 h2 => ?_,
    fun h1 h2 => ?_⟩
  · simp [isEvenOdd, looseEq_str_str]
  · simp [isEvenOdd, looseEq_self E _ z0]
  · simp [isEvenOdd, looseEq_self E _ hc]
  · simp [isNonZero, looseEq_str_str]
  · simp [isNonZero, looseEq_self E _ z1]
  · simp [isNonZero, looseEq_self E _ hc]
  · have e : configurePathBuilder E pb windingRule spec =
        (Run.call (.initPath pb.constantWIND_EVEN_ODD)).andThen
          (configPathBuilderAux E pb spec) := by
      unfold isEvenOdd at h
      simp [configurePathBuilder, h]
    refine ⟨e, ?_⟩
    rw [e, Run.andThen_call]
    simp [initPathArgs, hno]
  · have e : configurePathBuilder E pb windingRule spec =
        (Run.call (.initPath pb.constantWIND_NON_ZERO)).andThen
          (configPathBuilderAux E pb spec) := by
      unfold isEvenOdd at h1
      unfold isNonZero at h2
      simp [configurePathBuilder, h1, h2]
    refine ⟨e, ?_⟩
    rw [e, Run.andThen_call]
    simp [initPathArgs, hno]
  · unfold isEvenOdd at h1
    unfold isNonZero at h2
    simp [configurePathBuilder, h1, h2, Run.throw]

/-- A string other than "WIND_EVEN_ODD" that the engine reads as the number 1
(as "1.0", "1e0" and "0x1" are read) is `==` to
`java.awt.geom.Path2D.WIND_NON_ZERO` and not to
`java.awt.geom.Path2D.WIND_EVEN_ODD`: unless it is `==` to
`pb.constantWIND_EVEN_ODD()`, `configurePathBuilder` calls `pb.initPath` with
`pb.constantWIND_NON_ZERO()` and goes on to the helper. -/
theorem configurePathBuilder_string_read_as_one (E : Engine) (pb : PathBuilder) (s : String)
    (spec : Spec) (h1 : E.strToNum s = .fin 1) (hs : s ≠ "WIND_EVEN_ODD")
    (hc : looseEq E (str s) pb.constantWIND_EVEN_ODD = false) :
    configurePathBuilder E pb (str s) spec =
      (Run.call (.initPath pb.constantWIND_NON_ZERO)).andThen (configPathBuilderAux E pb spec) := by
  have a0 : looseEq E (str s) Path2D_WIND_EVEN_ODD = false := by
    show Double.numEq (E.strToNum s) (.fin 0) = false
    rw [h1]
    decide
  have a1 : looseEq E (str s) Path2D_WIND_NON_ZERO = true := by
    show Double.numEq (E.strToNum s) (.fin 1) = true
    rw [h1]
    decide
  have b0 : looseEq E (str s) (str "WIND_EVEN_ODD") = false := by
    rw [looseEq_str_str]
    simpa using hs
  simp [configurePathBuilder, a0, a1, b0, hc]

/-- A number that passes neither test is reported in the string form that the
engine gives it. -/
theorem configurePathBuilder_number_message (E : Engine) (pb : PathBuilder) (n : Double)
    (spec : Spec) (h1 : isEvenOdd E pb (num n) = false) (h2 : isNonZero E pb (num n) = false) :
    configurePathBuilder E pb (num n) spec =
      Run.throw (.str ("bad winding rule: " ++ E.numToStr n)) := by
  unfold isEvenOdd at h1
  unfold isNonZero at h2
  simp [configurePathBuilder, h1, h2, toStr]

mutual
/-- On a nested array of "MOVE_TO", "SEG_END" and "CLOSE" entries the helper
appends the points of the leaves and does not throw. -/
theorem configPathBuilderAux_plain (E : Engine) (pb : PathBuilder)
    (hpb : NamesPassEarlierTests E pb) :
    ∀ spec, plainLeaves spec = true → (∃ type items, spec = .arr type items) →
      configPathBuilderAux E pb spec = ⟨(leafPoints spec).map Call.append, none⟩
  | .arr type items, h, _ => by
    rw [configPathBuilderAux, leafPoints]
    rw [plainLeaves] at h
    exact loop_plain E pb hpb type items 0 h
  | .obj _ _ _, _, ⟨_, _, he⟩ => by cases he
  | .nullish, _, ⟨_, _, he⟩ => by cases he
/-- The loop of the helper on "MOVE_TO", "SEG_END" and "CLOSE" entries. -/
theorem loop_plain (E : Engine) (pb : PathBuilder) (hpb : NamesPassEarlierTests E pb)
    (specType : JSVal) :
    ∀ items i, plainLeaves.all items = true →
      configPathBuilderAux.loop E pb specType items i =
        ⟨(leafPoints.all items).map Call.append, none⟩
  | [], _, _ => rfl
  | .arr type its :: rest, i, h => by
    rw [plainLeaves.all, Bool.and_eq_true] at h
    rw [configPathBuilderAux.loop,
      configPathBuilderAux_plain E pb hpb (.arr type its) h.1 ⟨type, its, rfl⟩,
      loop_plain E pb hpb specType rest (i + 1) h.2, Run.andThen_ok, leafPoints.all,
      List.map_append]
  | .nullish :: _, _, h => by simp [plainLeaves.all, plainLeaves] at h
  | .obj type x y :: rest, i, h => by
    rw [plainLeaves.all, Bool.and_eq_true] at h
    have ih := loop_plain E pb hpb specType rest (i + 1) h.2
    obtain ⟨h1, h2, h3⟩ := hpb
    have ht := h.1
    simp only [plainLeaves, Bool.or_eq_true, beq_iff_eq] at ht
    rcases ht with (ht | ht) | ht <;> subst ht
    · have e1 : looseEq E (str "MOVE_TO") (str "CLOSE") = false := by rw [looseEq_str_str]; decide
      have e2 : looseEq E (str "MOVE_TO") (str "MOVE_TO") = true := by rw [looseEq_str_str]; decide
      simp [configPathBuilderAux.loop, e1, e2, h1, ih, Run.andThen_call, leafPoints.all,
        leafPoints]
    · have e1 : looseEq E (str "SEG_END") (str "CLOSE") = false := by rw [looseEq_str_str]; decide
      have e2 : looseEq E (str "SEG_END") (str "MOVE_TO") = false := by rw [looseEq_str_str]; decide
      have e3 : looseEq E (str "SEG_END") (str "SEG_END") = true := by rw [looseEq_str_str]; decide
      have d1 : (str "SEG_END" = str "MOVE_TO") = False := by simp
      simp [configPathBuilderAux.loop, e1, e2, e3, h2, h3, ih, Run.andThen_call, leafPoints.all,
        leafPoints]
    · have e1 : looseEq E (str "CLOSE") (str "CLOSE") = true := by rw [looseEq_str_str]; decide
      simp [configPathBuilderAux.loop, e1, ih, Run.andThen_call, leafPoints.all,
        leafPoints]
end

/-- C2: for every nested array `spec` whose leaves are entries with type
"MOVE_TO", "SEG_END" or "CLOSE", `configPathBuilderAux(pb, spec)` calls
`pb.append` once per leaf, depth first and left to right, with the point made
by `createCPointMoveTo(x, y)`, `createCPointSegEnd(x, y)` or
`createCPointClose()`, and returns without throwing; for the test's `pathspec`
the appended points are MOVE_TO(20,30), SEG_END(50,60), MOVE_TO(120,130),
SEG_END(150,160).  The builder is one whose constants do not capture the
string names of other kinds. -/
theorem configPathBuilderAux_appends_leaves (E : Engine) (pb : PathBuilder)
    (hpb : NamesPassEarlierTests E pb) :
    (∀ type items, plainLeaves (.arr type items) = true →
      configPathBuilderAux E pb (.arr type items) =
        ⟨(leafPoints (.arr type items)).map Call.append, none⟩) ∧
    configPathBuilderAux E pb pathspec =
      ⟨[.append (.moveTo (num 20) (num 30)), .append (.segEnd (num 50) (num 60)),
        .append (.moveTo (num 120) (num 130)), .append (.segEnd (num 150) (num 160))], none⟩ := by
  refine ⟨fun type items h => configPathBuilderAux_plain E pb hpb _ h ⟨type, items, rfl⟩, ?_⟩
  have h : plainLeaves pathspec = true := by decide
  rw [configPathBuilderAux_plain E pb hpb pathspec h ⟨_, _, rfl⟩]
  rfl

/-- Witness of C2: the sample builder and the test's `pathspec`. -/
theorem configPathBuilderAux_appends_leaves_witness :
    NamesPassEarlierTests sampleEngine sampleBuilder ∧
    ((∀ type items, plainLeaves (.arr type items) = true →
      configPathBuilderAux sampleEngine sampleBuilder (.arr type items) =
        ⟨(leafPoints (.arr type items)).map Call.append, none⟩) ∧
    configPathBuilderAux sampleEngine sampleBuilder pathspec =
      ⟨[.append (.moveTo (num 20) (num 30)), .append (.segEnd (num 50) (num 60)),
        .append (.moveTo (num 120) (num 130)), .append (.segEnd (num 150) (num 160))], none⟩) :=
  ⟨by decide, configPathBuilderAux_appends_leaves sampleEngine sampleBuilder (by decide)⟩

/-- C3 (the code at the failing input): with a builder whose constants are
distinct from the string names, an entry `{type: "CONTROL", x, y}` or
`{type: "SPLINE", x, y}` at index 0 of an array literal makes
`configPathBuilderAux` throw "bad type: undefined at index 0" without any
call of `pb.append`, while the builder constant in the same place appends the
control point. -/
theorem configPathBuilderAux_control_string_throws (E : Engine) (pb : PathBuilder)
    (hpb : NamesDistinctFromConstants E pb) (x y : JSVal) :
    configPathBuilderAux E pb (.arr undefined [.obj (str "CONTROL") x y]) =
      ⟨[], some (.str "bad type: undefined at index 0")⟩ ∧
    configPathBuilderAux E pb (.arr undefined [.obj (str "SPLINE") x y]) =
      ⟨[], some (.str "bad type: undefined at index 0")⟩ := by
  have c := fun n hn c hc => hpb n hn c hc
  have k1 := c "CONTROL" (by simp) pb.constantCLOSE (by simp)
  have k2 := c "CONTROL" (by simp) pb.constantMOVE_TO (by simp)
  have k3 := c "CONTROL" (by simp) pb.constantSEG_END (by simp)
  have k4 := c "CONTROL" (by simp) pb.constantCONTROL (by simp)
  have k5 := c "CONTROL" (by simp) pb.constantSPLINE (by simp)
  have s1 := c "SPLINE" (by simp) pb.constantCLOSE (by simp)
  have s2 := c "SPLINE" (by simp) pb.constantMOVE_TO (by simp)
  have s3 := c "SPLINE" (by simp) pb.constantSEG_END (by simp)
  have s4 := c "SPLINE" (by simp) pb.constantCONTROL (by simp)
  have s5 := c "SPLINE" (by simp) pb.constantSPLINE (by simp)
  have u1 : looseEq E undefined (str "CONTROL") = false := rfl
  have u2 : looseEq E undefined (str "SPLINE") = false := rfl
  have a1 : looseEq E (str "CONTROL") (str "CLOSE") = false := by rw [looseEq_str_str]; decide
  have a2 : looseEq E (str "CONTROL") (str "MOVE_TO") = false := by rw [looseEq_str_str]; decide
  have a3 : looseEq E (str "CONTROL") (str "SEG_END") = false := by rw [looseEq_str_str]; decide
  have b1 : looseEq E (str "SPLINE") (str "CLOSE") = false := by rw [looseEq_str_str]; decide
  have b2 : looseEq E (str "SPLINE") (str "MOVE_TO") = false := by rw [looseEq_str_str]; decide
  have b3 : looseEq E (str "SPLINE") (str "SEG_END") = false := by rw [looseEq_str_str]; decide
  constructor
  · simp [configPathBuilderAux, configPathBuilderAux.loop, k1, k2, k3, k4, k5, u1, u2, a1, a2,
      a3, Run.throw, toStr]
    decide
  · simp [configPathBuilderAux, configPathBuilderAux.loop, s1, s2, s3, s4, s5, u1, u2, b1, b2,
      b3, Run.throw, toStr]
    decide

/-- Witness of C3's failing input: the sample builder, `x = 1`, `y = 2`. -/
theorem configPathBuilderAux_control_string_throws_witness :
    NamesDistinctFromConstants sampleEngine sampleBuilder ∧
    (configPathBuilderAux sampleEngine sampleBuilder
        (.arr undefined [.obj (str "CONTROL") (num 1) (num 2)]) =
      ⟨[], some (.str "bad type: undefined at index 0")⟩ ∧
    configPathBuilderAux sampleEngine sampleBuilder
        (.arr undefined [.obj (str "SPLINE") (num 1) (num 2)]) =
      ⟨[], some (.str "bad type: undefined at index 0")⟩) :=
  ⟨by decide, configPathBuilderAux_control_string_throws sampleEngine sampleBuilder (by decide)
    (num 1) (num 2)⟩

end PbTest

/-! ## The function tables and their derivatives -/

namespace RvfVaTest

/-- C4 (the code at the failing input): `valueAt([x, y])` and `f([x, y])` are
`sin(x)*cos(y)` and `derivAt(0, [x, y])` is its partial derivative with
respect to `x`; but `derivAt(1, [x, y])` and `fp(1, [x, y])` are
`-sin(x)*cos(y)`, while the partial derivative with respect to `y` is
`-sin(x)*sin(y)`: at `x = pi/2`, `y = 0` the method and `fp` return -1 and the
derivative is 0. -/
theorem derivAt_index_one_is_not_the_derivative (nan : ℝ) :
    (∀ x y, valueAt ⟨Real.sin, Real.cos, nan⟩ (some [x, y]) = .ok (Real.sin x * Real.cos y)) ∧
    (∀ x y, f ⟨Real.sin, Real.cos, nan⟩ (some [x, y]) = .ok (Real.sin x * Real.cos y)) ∧
    IsDerivWrt 0 (fun x y => Real.sin x * Real.cos y) (fun x y => Real.cos x * Real.cos y) ∧
    (∀ x y, derivAt ⟨Real.sin, Real.cos, nan⟩ 0 (some [x, y]) =
      .ok (Real.cos x * Real.cos y)) ∧
    IsDerivWrt 1 (fun x y => Real.sin x * Real.cos y) (fun x y => -(Real.sin x) * Real.sin y) ∧
    (∀ x y, derivAt ⟨Real.sin, Real.cos, nan⟩ 1 (some [x, y]) =
      .ok (-(Real.sin x) * Real.cos y)) ∧
    derivAt ⟨Real.sin, Real.cos, nan⟩ 1 (some [Real.pi / 2, 0]) = .ok (-1) ∧
    fp ⟨Real.sin, Real.cos, nan⟩ 1 (some [Real.pi / 2, 0]) = .ok (some (-1)) ∧
    HasDerivAt (fun t => Real.sin (Real.pi / 2) * Real.cos t) 0 0 := by
  have hy : ∀ x y : ℝ, HasDerivAt (fun t => Real.sin x * Real.cos t)
      (-(Real.sin x) * Real.sin y) y := fun x y =>
    ((Real.hasDerivAt_cos y).const_mul (Real.sin x)).congr_deriv (by ring)
  refine ⟨fun _ _ => rfl, fun _ _ => rfl, ?_, fun _ _ => rfl, ?_, fun _ _ => rfl, ?_, ?_, ?_⟩
  · intro x y
    simp only [if_true]
    exact (Real.hasDerivAt_sin x).mul_const _
  · intro x y
    simp only [one_ne_zero, if_false]
    exact hy x y
  · simp [derivAt, MathObj.sinOf, MathObj.cosOf]
  · simp [fp, MathObj.sinOf, MathObj.cosOf]
  · exact (hy (Real.pi / 2) 0).congr_deriv (by simp)

/-- C5: for `i`, `j` in {0, 1}, `secondDerivAt(i, j, [x, y])` is the second
partial derivative of `valueAt([x, y]) = sin(x)*cos(y)`, first with respect
to the argument of index `i` and then of index `j`; `fpp` returns the same
number, with `f([x, y]) = sin(x)*cos(y)`; and `secondDerivAt(i, j, args)`
equals `secondDerivAt(j, i, args)` for every `args`, as for `fpp`. -/
theorem secondDerivAt_is_second_derivative (nan : ℝ) (i j : Int) (hi : i = 0 ∨ i = 1)
    (hj : j = 0 ∨ j = 1) :
    (∀ x y, valueAt ⟨Real.sin, Real.cos, nan⟩ (some [x, y]) = .ok (Real.sin x * Real.cos y)) ∧
    (∀ x y, f ⟨Real.sin, Real.cos, nan⟩ (some [x, y]) = .ok (Real.sin x * Real.cos y)) ∧
    (∃ d dd : ℝ → ℝ → ℝ,
      IsDerivWrt i (fun x y => Real.sin x * Real.cos y) d ∧
      IsDerivWrt j d dd ∧
      (∀ x y, secondDerivAt ⟨Real.sin, Real.cos, nan⟩ i j (some [x, y]) = .ok (dd x y)) ∧
      (∀ x y, fpp ⟨Real.sin, Real.cos, nan⟩ i j (some [x, y]) = .ok (some (dd x y)))) ∧
    (∀ args, secondDerivAt ⟨Real.sin, Real.cos, nan⟩ i j args =
      secondDerivAt ⟨Real.sin, Real.cos, nan⟩ j i args) ∧
    (∀ args, fpp ⟨Real.sin, Real.cos, nan⟩ i j args =
      fpp ⟨Real.sin, Real.cos, nan⟩ j i args) := by
  have sx : ∀ x y : ℝ, HasDerivAt (fun t => Real.sin t * Real.cos y)
      (Real.cos x * Real.cos y) x := fun x y => (Real.hasDerivAt_sin x).mul_const _
  have sy : ∀ x y : ℝ, HasDerivAt (fun t => Real.sin x * Real.cos t)
      (-(Real.sin x) * Real.sin y) y := fun x y =>
    ((Real.hasDerivAt_cos y).const_mul (Real.sin x)).congr_deriv (by ring)
  have cxx : ∀ x y : ℝ, HasDerivAt (fun t => Real.cos t * Real.cos y)
      (-(Real.sin x) * Real.cos y) x := fun x y => (Real.hasDerivAt_cos x).mul_const _
  have cxy : ∀ x y : ℝ, HasDerivAt (fun t => Real.cos x * Real.cos t)
      (-(Real.cos x) * Real.sin y) y := fun x y =>
    ((Real.hasDerivAt_cos y).const_mul (Real.cos x)).congr_deriv (by ring)
  have syx : ∀ x y : ℝ, HasDerivAt (fun t => -(Real.sin t) * Real.sin y)
      (-(Real.cos x) * Real.sin y) x := fun x y => ((Real.hasDerivAt_sin x).neg).mul_const _
  have syy : ∀ x y : ℝ, HasDerivAt (fun t => -(Real.sin x) * Real.sin t)
      (-(Real.sin x) * Real.cos y) y := fun x y =>
    (Real.hasDerivAt_sin y).const_mul (-(Real.sin x))
  have symm1 : ∀ args, secondDerivAt ⟨Real.sin, Real.cos, nan⟩ 0 1 args =
      secondDerivAt ⟨Real.sin, Real.cos, nan⟩ 1 0 args := fun args => by cases args <;> rfl
  have symm2 : ∀ args, fpp ⟨Real.sin, Real.cos, nan⟩ 0 1 args =
      fpp ⟨Real.sin, Real.cos, nan⟩ 1 0 args := fun args => by cases args <;> rfl
  refine ⟨fun _ _ => rfl, fun _ _ => rfl, ?_⟩
  rcases hi with rfl | rfl <;> rcases hj with rfl | rfl
  · refine ⟨⟨fun x y => Real.cos x * Real.cos y, fun x y => -(Real.sin x) * Real.cos y,
      ?_, ?_, fun _ _ => rfl, fun _ _ => rfl⟩, fun _ => rfl, fun _ => rfl⟩
    · intro x y
      simpa only [if_true] using sx x y
    · intro x y
      simpa only [if_true] using cxx x y
  · refine ⟨⟨fun x y => Real.cos x * Real.cos y, fun x y => -(Real.cos x) * Real.sin y,
      ?_, ?_, fun _ _ => rfl, fun _ _ => rfl⟩, symm1, symm2⟩
    · intro x y
      simpa only [if_true] using sx x y
    · intro x y
      simpa only [one_ne_zero, if_false] using cxy x y
  · refine ⟨⟨fun x y => -(Real.sin x) * Real.sin y, fun x y => -(Real.cos x) * Real.sin y,
      ?_, ?_, fun _ _ => rfl, fun _ _ => rfl⟩, fun a => (symm1 a).symm, fun a => (symm2 a).symm⟩
    · intro x y
      simpa only [one_ne_zero, if_false] using sy x y
    · intro x y
      simpa only [if_true] using syx x y
  · refine ⟨⟨fun x y => -(Real.sin x) * Real.sin y, fun x y => -(Real.sin x) * Real.cos y,
      ?_, ?_, fun _ _ => rfl, fun _ _ => rfl⟩, fun _ => rfl, fun _ => rfl⟩
    · intro x y
      simpa only [one_ne_zero, if_false] using sy x y
    · intro x y
      simpa only [one_ne_zero, if_false] using syy x y

/-- Witness of C5: the mixed derivative, `i = 0` and `j = 1`. -/
theorem secondDerivAt_is_second_derivative_witness :
    ((0 : Int) = 0 ∨ (0 : Int) = 1) ∧ ((1 : Int) = 0 ∨ (1 : Int) = 1) ∧
    ((∀ x y, valueAt ⟨Real.sin, Real.cos, 0⟩ (some [x, y]) = .ok (Real.sin x * Real.cos y)) ∧
    (∀ x y, f ⟨Real.sin, Real.cos, 0⟩ (some [x, y]) = .ok (Real.sin x * Real.cos y)) ∧
    (∃ d dd : ℝ → ℝ → ℝ,
      IsDerivWrt 0 (fun x y => Real.sin x * Real.cos y) d ∧
      IsDerivWrt 1 d dd ∧
      (∀ x y, secondDerivAt ⟨Real.sin, Real.cos, 0⟩ 0 1 (some [x, y]) = .ok (dd x y)) ∧
      (∀ x y, fpp ⟨Real.sin, Real.cos, 0⟩ 0 1 (some [x, y]) = .ok (some (dd x y)))) ∧
    (∀ args, secondDerivAt ⟨Real.sin, Real.cos, 0⟩ 0 1 args =
      secondDerivAt ⟨Real.sin, Real.cos, 0⟩ 1 0 args) ∧
    (∀ args, fpp ⟨Real.sin, Real.cos, 0⟩ 0 1 args =
      fpp ⟨Real.sin, Real.cos, 0⟩ 1 0 args)) :=
  ⟨Or.inl rfl, Or.inr rfl,
    secondDerivAt_is_second_derivative 0 0 1 (Or.inl rfl) (Or.inr rfl)⟩

/-- C8 (counterexample): with `args` undefined, `derivAt(0, args)` and
`secondDerivAt(0, 0, args)` throw instead of returning a number, and
`derivAt(2, args)` and `secondDerivAt(2, 2, args)` throw the engine's type
error, not `Error("Illegal Argument")`. -/
theorem derivAt_undefined_args_throws :
    derivAt intMath 0 none = .error .typeError ∧
    (¬ ∃ r, derivAt intMath 0 none = .ok r) ∧
    secondDerivAt intMath 0 0 none = .error .typeError ∧
    (¬ ∃ r, secondDerivAt intMath 0 0 none = .ok r) ∧
    derivAt intMath 2 none = .error .typeError ∧
    derivAt intMath 2 none ≠ .error (.error "Illegal Argument") ∧
    secondDerivAt intMath 2 2 none = .error .typeError ∧
    secondDerivAt intMath 2 2 none ≠ .error (.error "Illegal Argument") := by
  refine ⟨rfl, ?_, rfl, ?_, rfl, by decide, rfl, by decide⟩
  · rintro ⟨r, h⟩
    cases h
  · rintro ⟨r, h⟩
    cases h

/-- C8 (amended): for all integers `i`, `j` and every array `args`,
`derivAt(i, args)` throws `Error("Illegal Argument")` exactly when `i` is
neither 0 nor 1 and returns a number otherwise, and `secondDerivAt(i, j,
args)` throws `Error("Illegal Argument")` exactly when `(i, j)` is not in
{0,1} x {0,1} and returns a number otherwise. -/
theorem derivAt_throws_iff_index_illegal {R : Type} [Mul R] [Neg R] (M : MathObj R)
    (i j : Int) (a : List R) :
    (derivAt M i (some a) = .error (.error "Illegal Argument") ↔ ¬(i = 0 ∨ i = 1)) ∧
    (¬(i = 0 ∨ i = 1) ∨ ∃ r, derivAt M i (some a) = .ok r) ∧
    (secondDerivAt M i j (some a) = .error (.error "Illegal Argument") ↔
      ¬((i = 0 ∨ i = 1) ∧ (j = 0 ∨ j = 1))) ∧
    (¬((i = 0 ∨ i = 1) ∧ (j = 0 ∨ j = 1)) ∨ ∃ r, secondDerivAt M i j (some a) = .ok r) := by
  refine ⟨?_, ?_, ?_, ?_⟩
  · unfold derivAt
    by_cases h0 : i = 0
    · simp [h0]
    · by_cases h1 : i = 1
      · simp [h1]
      · simp [h0, h1]
  · unfold derivAt
    by_cases h0 : i = 0
    · simp [h0]
    · by_cases h1 : i = 1
      · simp [h1]
      · simp [h0, h1]
  · unfold secondDerivAt
    by_cases hi0 : i = 0 <;> by_cases hi1 : i = 1 <;> by_cases hj0 : j = 0 <;>
      by_cases hj1 : j = 1 <;> simp_all
  · unfold secondDerivAt
    by_cases hi0 : i = 0 <;> by_cases hi1 : i = 1 <;> by_cases hj0 : j = 0 <;>
      by_cases hj1 : j = 1 <;> simp_all

end RvfVaTest

/-! ### Two arguments -/

theorem consistentTableTwo_sin_cos :
    ConsistentTableTwo (fun x y => Real.sin x * Real.cos y)
      (fun x y => Real.cos x * Real.cos y) (fun x y => -(Real.sin x) * Real.sin y)
      (fun x y => -(Real.sin x) * Real.cos y) (fun x y => -(Real.cos x) * Real.sin y)
      (fun x y => -(Real.cos x) * Real.sin y) (fun x y => -(Real.sin x) * Real.cos y) := by
  refine ⟨?_, ?_, ?_, ?_, ?_, ?_, rfl⟩
  · intro x y
    simpa only [if_true] using (Real.hasDerivAt_sin x).mul_const (Real.cos y)
  · intro x y
    simpa only [one_ne_zero, if_false] using
      ((Real.hasDerivAt_cos y).const_mul (Real.sin x)).congr_deriv (by ring)
  · intro x y
    simpa only [if_true] using (Real.hasDerivAt_cos x).mul_const (Real.cos y)
  · intro x y
    simpa only [one_ne_zero, if_false] using
      ((Real.hasDerivAt_cos y).const_mul (Real.cos x)).congr_deriv (by ring)
  · intro x y
    simpa only [if_true] using ((Real.hasDerivAt_sin x).neg).mul_const (Real.sin y)
  · intro x y
    simpa only [one_ne_zero, if_false] using
      (Real.hasDerivAt_sin y).const_mul (-(Real.sin x))

/-- C6: in `rvftwotest.js` and `ftest.js` the two-argument tables are
consistent with their names.  With `valueAt(x, y) = sin(x)*cos(y)`,
`deriv1At` and `deriv2At` are the first partial derivatives of `valueAt`,
`derivIJAt` is the partial derivative with respect to argument `J` of
`derivIAt`, and `deriv12At = deriv21At`; the same holds for the functions
`f`, `f1`, `f2`, `f11`, `f12`, `f21`, `f22` of `rvftwotest.js`, for `f2`,
`f2d1`, `f2d2`, `f2d11`, `f2d12`, `f2d21`, `f2d22` of `ftest.js`, and for the
object of `ftest.js` whose methods call them. -/
theorem two_argument_tables_consistent (nan : ℝ) :
    (∀ x y, RvfTwoTest.valueAt ⟨Real.sin, Real.cos, nan⟩ x y = Real.sin x * Real.cos y) ∧
    ConsistentTableTwo (RvfTwoTest.valueAt ⟨Real.sin, Real.cos, nan⟩)
      (RvfTwoTest.deriv1At ⟨Real.sin, Real.cos, nan⟩)
      (RvfTwoTest.deriv2At ⟨Real.sin, Real.cos, nan⟩)
      (RvfTwoTest.deriv11At ⟨Real.sin, Real.cos, nan⟩)
      (RvfTwoTest.deriv12At ⟨Real.sin, Real.cos, nan⟩)
      (RvfTwoTest.deriv21At ⟨Real.sin, Real.cos, nan⟩)
      (RvfTwoTest.deriv22At ⟨Real.sin, Real.cos, nan⟩) ∧
    ConsistentTableTwo (RvfTwoTest.f ⟨Real.sin, Real.cos, nan⟩)
      (RvfTwoTest.f1 ⟨Real.sin, Real.cos, nan⟩)
      (RvfTwoTest.f2 ⟨Real.sin, Real.cos, nan⟩)
      (RvfTwoTest.f11 ⟨Real.sin, Real.cos, nan⟩)
      (RvfTwoTest.f12 ⟨Real.sin, Real.cos, nan⟩)
      (RvfTwoTest.f21 ⟨Real.sin, Real.cos, nan⟩)
      (RvfTwoTest.f22 ⟨Real.sin, Real.cos, nan⟩) ∧
    (∀ x y, FTest.valueAt ⟨Real.sin, Real.cos, nan⟩ x y = Real.sin x * Real.cos y) ∧
    ConsistentTableTwo (FTest.f2 ⟨Real.sin, Real.cos, nan⟩)
      (FTest.f2d1 ⟨Real.sin, Real.cos, nan⟩)
      (FTest.f2d2 ⟨Real.sin, Real.cos, nan⟩)
      (FTest.f2d11 ⟨Real.sin, Real.cos, nan⟩)
      (FTest.f2d12 ⟨Real.sin, Real.cos, nan⟩)
      (FTest.f2d21 ⟨Real.sin, Real.cos, nan⟩)
      (FTest.f2d22 ⟨Real.sin, Real.cos, nan⟩) ∧
    ConsistentTableTwo (FTest.valueAt ⟨Real.sin, Real.cos, nan⟩)
      (FTest.deriv1At ⟨Real.sin, Real.cos, nan⟩)
      (FTest.deriv2At ⟨Real.sin, Real.cos, nan⟩)
      (FTest.deriv11At ⟨Real.sin, Real.cos, nan⟩)
      (FTest.deriv12At ⟨Real.sin, Real.cos, nan⟩)
      (FTest.deriv21At ⟨Real.sin, Real.cos, nan⟩)
      (FTest.deriv22At ⟨Real.sin, Real.cos, nan⟩) :=
  ⟨fun _ _ => rfl, consistentTableTwo_sin_cos, consistentTableTwo_sin_cos, fun _ _ => rfl,
    consistentTableTwo_sin_cos, consistentTableTwo_sin_cos⟩

/-! ### Three arguments -/

theorem consistentFirstThree_sin_cos :
    ConsistentFirstThree (fun x y z => Real.sin x * Real.cos y * z)
      (fun x y z => Real.cos x * Real.cos y * z) (fun x y z => -(Real.sin x) * Real.sin y * z)
      (fun x y _ => Real.sin x * Real.cos y) := by
  refine ⟨?_, ?_, ?_⟩
  · intro x y z
    show HasDerivAt (fun t => Real.sin t * Real.cos y * z) _ x
    exact ((Real.hasDerivAt_sin x).mul_const (Real.cos y)).mul_const z
  · intro x y z
    show HasDerivAt (fun t => Real.sin x * Real.cos t * z) _ y
    exact (((Real.hasDerivAt_cos y).const_mul (Real.sin x)).mul_const z).congr_deriv (by ring)
  · intro x y z
    show HasDerivAt (fun t => Real.sin x * Real.cos y * t) _ z
    exact ((hasDerivAt_id z).const_mul (Real.sin x * Real.cos y)).congr_deriv (by ring)

theorem consistentSecondThree_sin_cos :
    ConsistentSecondThree
      (fun x y z => Real.cos x * Real.cos y * z) (fun x y z => -(Real.sin x) * Real.sin y * z)
      (fun x y _ => Real.sin x * Real.cos y)
      (fun x y z => -(Real.sin x) * Real.cos y * z) (fun x y z => -(Real.cos x) * Real.sin y * z)
      (fun x y _ => Real.cos x * Real.cos y)
      (fun x y z => -(Real.cos x) * Real.sin y * z) (fun x y z => -(Real.sin x) * Real.cos y * z)
      (fun x y _ => -(Real.sin x) * Real.sin y)
      (fun x y _ => Real.cos x * Real.cos y) (fun x y _ => -(Real.sin x) * Real.sin y)
      (fun _ _ _ => 0) := by
  refine ⟨?_, ?_, ?_, ?_, ?_, ?_, ?_, ?_, ?_, rfl, rfl, rfl, fun _ _ _ => rfl⟩
  · intro x y z
    show HasDerivAt (fun t => Real.cos t * Real.cos y * z) _ x
    exact ((Real.hasDerivAt_cos x).mul_const (Real.cos y)).mul_const z
  · intro x y z
    show HasDerivAt (fun t => Real.cos x * Real.cos t * z) _ y
    exact (((Real.hasDerivAt_cos y).const_mul (Real.cos x)).mul_const z).congr_deriv (by ring)
  · intro x y z
    show HasDerivAt (fun t => Real.cos x * Real.cos y * t) _ z
    exact ((hasDerivAt_id z).const_mul (Real.cos x * Real.cos y)).congr_deriv (by ring)
  · intro x y z
    show HasDerivAt (fun t => -(Real.sin t) * Real.sin y * z) _ x
    exact (((Real.hasDerivAt_sin x).neg).mul_const (Real.sin y)).mul_const z
  · intro x y z
    show HasDerivAt (fun t => -(Real.sin x) * Real.sin t * z) _ y
    exact ((Real.hasDerivAt_sin y).const_mul (-(Real.sin x))).mul_const z
  · intro x y z
    show HasDerivAt (fun t => -(Real.sin x) * Real.sin y * t) _ z
    exact ((hasDerivAt_id z).const_mul (-(Real.sin x) * Real.sin y)).congr_deriv (by ring)
  · intro x y z
    show HasDerivAt (fun t => Real.sin t * Real.cos y) _ x
    exact (Real.hasDerivAt_sin x).mul_const (Real.cos y)
  · intro x y z
    show HasDerivAt (fun t => Real.sin x * Real.cos t) _ y
    exact ((Real.hasDerivAt_cos y).const_mul (Real.sin x)).congr_deriv (by ring)
  · intro x y z
    show HasDerivAt (fun _ => Real.sin x * Real.cos y) _ z
    exact hasDerivAt_const z _

/-- C7: in `rvfthreetest.js`, with `valueAt(x, y, z) = sin(x)*cos(y)*z`, each
`derivKAt` is the first partial derivative of `valueAt` with respect to
argument `K`, each `derivIJAt` is the partial derivative with respect to
argument `J` of `derivIAt`, `derivIJAt = derivJIAt`, `deriv33At` is zero, and
the functions `f`, `f1`, ..., `f33` agree pointwise with the methods. -/
theorem three_argument_table_consistent (nan : ℝ) :
    (∀ x y z, RvfThreeTest.valueAt ⟨Real.sin, Real.cos, nan⟩ x y z =
      Real.sin x * Real.cos y * z) ∧
    ConsistentFirstThree (RvfThreeTest.valueAt ⟨Real.sin, Real.cos, nan⟩)
      (RvfThreeTest.deriv1At ⟨Real.sin, Real.cos, nan⟩)
      (RvfThreeTest.deriv2At ⟨Real.sin, Real.cos, nan⟩)
      (RvfThreeTest.deriv3At ⟨Real.sin, Real.cos, nan⟩) ∧
    ConsistentSecondThree
      (RvfThreeTest.deriv1At ⟨Real.sin, Real.cos, nan⟩)
      (RvfThreeTest.deriv2At ⟨Real.sin, Real.cos, nan⟩)
      (RvfThreeTest.deriv3At ⟨Real.sin, Real.cos, nan⟩)
      (RvfThreeTest.deriv11At ⟨Real.sin, Real.cos, nan⟩)
      (RvfThreeTest.deriv12At ⟨Real.sin, Real.cos, nan⟩)
      (RvfThreeTest.deriv13At ⟨Real.sin, Real.cos, nan⟩)
      (RvfThreeTest.deriv21At ⟨Real.sin, Real.cos, nan⟩)
      (RvfThreeTest.deriv22At ⟨Real.sin, Real.cos, nan⟩)
      (RvfThreeTest.deriv23At ⟨Real.sin, Real.cos, nan⟩)
      (RvfThreeTest.deriv31At ⟨Real.sin, Real.cos, nan⟩)
      (RvfThreeTest.deriv32At ⟨Real.sin, Real.cos, nan⟩)
      (RvfThreeTest.deriv33At ⟨Real.sin, Real.cos, nan⟩) ∧
    (∀ (M : MathObj ℝ) (x y z : ℝ),
      RvfThreeTest.f M x y z = RvfThreeTest.valueAt M x y z ∧
      RvfThreeTest.f1 M x y z = RvfThreeTest.deriv1At M x y z ∧
      RvfThreeTest.f2 M x y z = RvfThreeTest.deriv2At M x y z ∧
      RvfThreeTest.f3 M x y z = RvfThreeTest.deriv3At M x y z ∧
      RvfThreeTest.f11 M x y z = RvfThreeTest.deriv11At M x y z ∧
      RvfThreeTest.f12 M x y z = RvfThreeTest.deriv12At M x y z ∧
      RvfThreeTest.f13 M x y z = RvfThreeTest.deriv13At M x y z ∧
      RvfThreeTest.f21 M x y z = RvfThreeTest.deriv21At M x y z ∧
      RvfThreeTest.f22 M x y z = RvfThreeTest.deriv22At M x y z ∧
      RvfThreeTest.f23 M x y z = RvfThreeTest.deriv23At M x y z ∧
      RvfThreeTest.f31 M x y z = RvfThreeTest.deriv31At M x y z ∧
      RvfThreeTest.f32 M x y z = RvfThreeTest.deriv32At M x y z ∧
      RvfThreeTest.f33 M x y z = RvfThreeTest.deriv33At M x y z) :=
  ⟨fun _ _ _ => rfl, consistentFirstThree_sin_cos, consistentSecondThree_sin_cos,
    fun _ _ _ _ => ⟨rfl, rfl, rfl, rfl, rfl, rfl, rfl, rfl, rfl, rfl, rfl, rfl, rfl⟩⟩

/-! ## `lockpart.js` -/

namespace Lockpart

/-- C9: the parameter block sets defaults without overriding values of the
caller.  Each of `z1`, `z2`, `w`, `w1`, `w2`, `h`, `h1`, `h2` that is
undefined on entry gets its default (10, 20, 30, 4, 8, 60, 4, 8), each that is
defined keeps its value, and `z0` is 0. -/
theorem parameters_defaults {R : Type} [Zero R] [NatCast R] [Add R] [Mul R] (g : Globals R) :
    (parameters g).z0 = 0 ∧
    ((g.z1 = none ∧ (parameters g).z1 = 10) ∨ g.z1 = some (parameters g).z1) ∧
    ((g.z2 = none ∧ (parameters g).z2 = 20) ∨ g.z2 = some (parameters g).z2) ∧
    ((g.w = none ∧ (parameters g).w = 30) ∨ g.w = some (parameters g).w) ∧
    ((g.w1 = none ∧ (parameters g).w1 = 4) ∨ g.w1 = some (parameters g).w1) ∧
    ((g.w2 = none ∧ (parameters g).w2 = 8) ∨ g.w2 = some (parameters g).w2) ∧
    ((g.h = none ∧ (parameters g).h = 60) ∨ g.h = some (parameters g).h) ∧
    ((g.h1 = none ∧ (parameters g).h1 = 4) ∨ g.h1 = some (parameters g).h1) ∧
    ((g.h2 = none ∧ (parameters g).h2 = 8) ∨ g.h2 = some (parameters g).h2) := by
  have key : ∀ (v : Option R) (d : R),
      (v = none ∧ withDefault v d = d) ∨ v = some (withDefault v d) := by
    intro v d
    cases v with
    | none => exact Or.inl ⟨rfl, rfl⟩
    | some r => exact Or.inr rfl
  exact ⟨rfl, key _ _, key _ _, key _ _, key _ _, key _ _, key _ _, key _ _, key _ _⟩

/-- C10: when `stl` is undefined the script throws "error: variable stl
undefined"; otherwise, when `da` is undefined, it throws "error:
directory-accesssor variable da undefined"; in both cases it has made no call
at all: no `Model3D` is created, no rectangle added, nothing written.  When
both are defined the script creates the `Model3D` first and does not throw. -/
theorem lockpart_requires_stl_and_da {R : Type} [Zero R] [NatCast R] [Add R] [Mul R]
    (ans : Answers) (fl : Flags)
    (g : Globals R) :
    (g.stl = .undefined →
      lockpartWith ans fl g = ⟨[], some (.str "error: variable stl undefined")⟩) ∧
    (g.stl ≠ .undefined → g.da = .undefined →
      lockpartWith ans fl g =
        ⟨[], some (.str "error: directory-accesssor variable da undefined")⟩) ∧
    (g.stl ≠ .undefined → g.da ≠ .undefined →
      (lockpartWith ans fl g).thrown = none ∧
      (lockpartWith ans fl g).calls.head? = some .newModel3D) := by
  have ty : ∀ v : JSVal, (v.typeOf == "undefined") = true ↔ v = .undefined := by
    intro v
    cases v <;> simp [JSVal.typeOf]
  refine ⟨fun h => ?_, fun h1 h2 => ?_, fun h1 h2 => ?_⟩
  · have := (ty g.stl).2 h
    simp [lockpartWith, this, Run.throw]
  · have a : ¬ ((g.stl.typeOf == "undefined") = true) := fun c => h1 ((ty _).1 c)
    have b := (ty g.da).2 h2
    simp [lockpartWith, a, b, Run.throw]
  · have a : ¬ ((g.stl.typeOf == "undefined") = true) := fun c => h1 ((ty _).1 c)
    have b : ¬ ((g.da.typeOf == "undefined") = true) := fun c => h2 ((ty _).1 c)
    simp [lockpartWith, a, b]

end Lockpart

/-! ## `stest2.js` -/

namespace STest2

theorem run_idle (fuel : Nat) (s : State) (h : s.pending = 0) : run fuel s = s := by
  cases fuel with
  | zero => rfl
  | succ n => simp [run, h]

/-- C18: with every `sim.scheduleCallObject` / `fifo.addCallObject` of
`callable` leading to exactly one later invocation of `callable.call`, the
chain ends: whatever bound of at least four invocations `sim.run()` is given,
`callable.call` is invoked exactly four times, with `count` 0, 1, 2, 3 on
entry; each of the first three invocations puts the object on the queue
again, the fourth returns without doing so; afterwards `count` is 4 and no
invocation is scheduled. -/
theorem callable_chain_is_finite (k : Nat) :
    run (k + 4) start =
      ⟨4, 0, [.invoked 0, .addCallObject, .invoked 1, .addCallObject, .invoked 2,
        .addCallObject, .invoked 3]⟩ ∧
    invocations (run (k + 4) start).log = 4 ∧
    enqueues (run (k + 4) start).log = 3 ∧
    (run (k + 4) start).count = 4 ∧
    (run (k + 4) start).pending = 0 := by
  have h : run (k + 4) start =
      ⟨4, 0, [.invoked 0, .addCallObject, .invoked 1, .addCallObject, .invoked 2,
        .addCallObject, .invoked 3]⟩ := by
    simp only [run, call, start]
    exact run_idle k _ rfl
  rw [h]
  exact ⟨rfl, rfl, rfl, rfl, rfl⟩

end STest2

/-! ## `lockpart.js`: the flags and the grid -/

namespace Lockpart

theorem rectangles_no_writeSTL {R : Type} [Zero R] [NatCast R] [Add R] [Mul R]
    (fl : Flags) (p : Params R) :
    ∀ e ∈ rectangles fl p, e.isWriteSTL = false := by
  unfold rectangles
  simp only [List.forall_mem_append]
  refine ⟨⟨⟨⟨⟨⟨⟨⟨⟨?_, ?_⟩, ?_⟩, ?_⟩, ?_⟩, ?_⟩, ?_⟩, ?_⟩, ?_⟩, ?_⟩ <;>
    (split_ifs <;> simp [Event.isWriteSTL])

theorem animation_no_writeSTL {R : Type} (ans : Answers) (da : JSVal) :
    ∀ e ∈ (animation ans da : List (Event R)), e.isWriteSTL = false := by
  simp [animation, Event.isWriteSTL]

theorem typeOf_undefined_iff (v : JSVal) :
    (v.typeOf == "undefined") = true ↔ v = .undefined := by
  cases v <;> simp [JSVal.typeOf]

theorem lockpartWith_stl_undefined {R : Type} [Zero R] [NatCast R] [Add R] [Mul R]
    (ans : Answers) (fl : Flags)
    (g : Globals R) (h : g.stl = .undefined) :
    lockpartWith ans fl g = Run.throw (.str "error: variable stl undefined") := by
  have := (typeOf_undefined_iff g.stl).2 h
  simp [lockpartWith, this]

theorem lockpartWith_da_undefined {R : Type} [Zero R] [NatCast R] [Add R] [Mul R]
    (ans : Answers) (fl : Flags)
    (g : Globals R) (h1 : g.stl ≠ .undefined) (h2 : g.da = .undefined) :
    lockpartWith ans fl g =
      Run.throw (.str "error: directory-accesssor variable da undefined") := by
  have a : ¬ ((g.stl.typeOf == "undefined") = true) :=
    fun c => h1 ((typeOf_undefined_iff _).1 c)
  have b := (typeOf_undefined_iff g.da).2 h2
  simp [lockpartWith, a, b]

theorem lockpartWith_defined {R : Type} [Zero R] [NatCast R] [Add R] [Mul R]
    (ans : Answers) (fl : Flags)
    (g : Globals R) (h1 : g.stl ≠ .undefined) (h2 : g.da ≠ .undefined) :
    lockpartWith ans fl g =
      ⟨.newModel3D :: (rectangles fl (parameters g) ++ writeIfVerified ans fl g.stl ++
        animation ans g.da), none⟩ := by
  have a : ¬ ((g.stl.typeOf == "undefined") = true) :=
    fun c => h1 ((typeOf_undefined_iff _).1 c)
  have b : ¬ ((g.da.typeOf == "undefined") = true) :=
    fun c => h2 ((typeOf_undefined_iff _).1 c)
  simp [lockpartWith, a, b]

theorem writeIfVerified_filter {R : Type} (ans : Answers) (fl : Flags) (stl : JSVal) :
    (writeIfVerified ans fl stl : List (Event R)).filter Event.isWriteSTL =
      if verify fl = true ∧ ans.printable = true then [.writeSTL "Lockpart STL File" stl]
      else [] := by
  unfold writeIfVerified
  by_cases hv : verify fl = true <;> by_cases hp : ans.printable = true <;>
    simp [hv, hp, Event.isWriteSTL]

/-- C11: `verify` is true exactly when the six debugging flags `top`,
`bottom`, `sides1`, `sides2`, `inside1`, `inside2` are all true; the script
calls `m3d.writeSTL` only when `verify` is true and `m3d.printable(...)`
returns true (then once, with "Lockpart STL File" and `stl`, provided `stl`
and `da` are defined), so with a flag switched off no STL is written; with
the flags as the script sets them `verify` is true. -/
theorem writeSTL_only_when_verified {R : Type} [Zero R] [NatCast R] [Add R] [Mul R]
    (ans : Answers) (fl : Flags)
    (g : Globals R) :
    (verify fl = true ↔ (fl.top = true ∧ fl.bottom = true ∧ fl.sides1 = true ∧
      fl.sides2 = true ∧ fl.inside1 = true ∧ fl.inside2 = true)) ∧
    ((lockpartWith ans fl g).calls.filter Event.isWriteSTL =
      if g.stl ≠ .undefined ∧ g.da ≠ .undefined ∧ verify fl = true ∧ ans.printable = true
      then [.writeSTL "Lockpart STL File" g.stl] else []) ∧
    verify Flags.written = true := by
  have hr : (rectangles fl (parameters g)).filter Event.isWriteSTL = [] :=
    List.filter_eq_nil_iff.2 (fun e he => by simp [rectangles_no_writeSTL fl _ e he])
  have ha : (animation ans g.da : List (Event R)).filter Event.isWriteSTL = [] :=
    List.filter_eq_nil_iff.2 (fun e he => by simp [animation_no_writeSTL ans _ e he])
  refine ⟨?_, ?_, rfl⟩
  · simp [verify, and_assoc]
  · by_cases h1 : g.stl = .undefined
    · rw [lockpartWith_stl_undefined ans fl g h1]
      simp [Run.throw, h1]
    · by_cases h2 : g.da = .undefined
      · rw [lockpartWith_da_undefined ans fl g h1 h2]
        simp [Run.throw, h2]
      · rw [lockpartWith_defined ans fl g h1 h2]
        have hn : (Event.newModel3D : Event R).isWriteSTL = false := rfl
        rw [List.filter_cons_of_neg (by simp [hn]), List.filter_append, List.filter_append,
          hr, ha, writeIfVerified_filter]
        simp [h1, h2]

/-- C16: the x coordinates computed two ways agree in exact arithmetic:
`x5 = x1` and `x6 = x2 = 2*w1 + 2*w2 + w`; likewise `y4 = 2*h1 + 2*h2 + h`. -/
theorem grid_coordinates_agree {R : Type} [Ring R] (p : Params R) :
    x5 p = x1 p ∧ x6 p = x2 p ∧ x2 p = 2 * p.w1 + 2 * p.w2 + p.w ∧
    y4 p = 2 * p.h1 + 2 * p.h2 + p.h := by
  simp only [x1, x2, x3, x4, x5, x6, y1, y2, y3, y4, two_mul]
  refine ⟨?_, ?_, ?_, ?_⟩ <;> abel

/-- C17 (counterexample): the script adds doubles, and `1 + 2^-53` rounds to
1.  With `w1 = h1 = 1` and `w = w2 = h = h2 = 2^-53`, which are doubles above
0, the script computes `y1 = h1 + h2 = 1 = h1` and `x3 = w1 + w2 = 1 = w1`:
`h1 < y1` and `w1 < x3` fail, and the second call of the script,
`Rectangle.addH(m3d, z1, 0.0, h1, w1, y1)`, is made with the arguments
`(10, 0, 1, 1, 1)`, a degenerate rectangle with `ylow = yhigh`. -/
theorem grid_not_increasing_in_doubles :
    (Double.round 1 = .fin 1 ∧ Double.round (1 / 2 ^ 53) = .fin (1 / 2 ^ 53)) ∧
    ((0 : Double) < (parameters roundingGlobals).w ∧ 0 < (parameters roundingGlobals).w1 ∧
      0 < (parameters roundingGlobals).w2 ∧ 0 < (parameters roundingGlobals).h ∧
      0 < (parameters roundingGlobals).h1 ∧ 0 < (parameters roundingGlobals).h2) ∧
    y1 (parameters roundingGlobals) = (parameters roundingGlobals).h1 ∧
    x3 (parameters roundingGlobals) = (parameters roundingGlobals).w1 ∧
    ¬ ((parameters roundingGlobals).h1 < y1 (parameters roundingGlobals)) ∧
    ¬ ((parameters roundingGlobals).w1 < x3 (parameters roundingGlobals)) ∧
    (rectangles Flags.written (parameters roundingGlobals))[1]? =
      some (.addH (.fin 10) (.fin 0) (.fin 1) (.fin 1) (.fin 1)) ∧
    ¬ (Event.addH (.fin 10) (.fin 0) (.fin 1) (.fin 1) (.fin 1) : Event Double).NonDegenerate ∧
    ¬ (∀ e ∈ rectangles Flags.written (parameters roundingGlobals), e.NonDegenerate) := by
  have hm : Event.addH (.fin 10) (.fin 0) (.fin 1) (.fin 1) (.fin 1) ∈
      rectangles Flags.written (parameters roundingGlobals) := by decide!
  have hd : ¬ (Event.addH (.fin 10) (.fin 0) (.fin 1) (.fin 1) (.fin 1) :
      Event Double).NonDegenerate := by
    show ¬ ((Double.fin 0 < Double.fin 1) ∧ (Double.fin 1 < Double.fin 1))
    decide!
  exact ⟨by decide!, ⟨by decide!, by decide!, by decide!, by decide!, by decide!, by decide!⟩,
    by decide!, by decide!, by decide!, by decide!, by decide!, hd, fun h => hd (h _ hm)⟩

/-- C17 (as amended): in exact arithmetic, that is with the numbers of any
linearly ordered ring, for strictly positive `w`, `w1`, `w2`, `h`, `h1`, `h2`
the grid coordinates are strictly increasing, `0 < w1 < x3 < x4 < x5 < x6` and
`0 < h1 < y1 < y2 < y3 < y4` (and `x1 < x2`), so every `Rectangle.addH` and
`Rectangle.addFlippedH` call of the script is given a rectangle with
`xlow < xhigh` and `ylow < yhigh`, for every setting of the flags; with the
flags as written there are 48 such calls. -/
theorem grid_strictly_increasing {R : Type} [LinearOrderedRing R] (fl : Flags) (p : Params R)
    (hw : 0 < p.w) (hw1 : 0 < p.w1) (hw2 : 0 < p.w2) (hh : 0 < p.h) (hh1 : 0 < p.h1)
    (hh2 : 0 < p.h2) :
    (0 < p.w1 ∧ p.w1 < x3 p ∧ x3 p < x4 p ∧ x4 p < x5 p ∧ x5 p < x6 p ∧ x1 p < x2 p) ∧
    (0 < p.h1 ∧ p.h1 < y1 p ∧ y1 p < y2 p ∧ y2 p < y3 p ∧ y3 p < y4 p) ∧
    (∀ e ∈ rectangles fl p, e.NonDegenerate) ∧
    ((rectangles Flags.written p).filter Event.isHorizontal).length = 48 := by
  have a1 : p.w1 < x3 p := lt_add_of_pos_right _ hw2
  have a2 : x3 p < x4 p := lt_add_of_pos_right _ hw
  have a3 : x4 p < x5 p := lt_add_of_pos_right _ hw2
  have a4 : x5 p < x6 p := lt_add_of_pos_right _ hw1
  have a5 : x1 p < x2 p := lt_add_of_pos_right _ hw1
  have b1 : p.h1 < y1 p := lt_add_of_pos_right _ hh2
  have b2 : y1 p < y2 p := lt_add_of_pos_right _ hh
  have b3 : y2 p < y3 p := lt_add_of_pos_right _ hh2
  have b4 : y3 p < y4 p := lt_add_of_pos_right _ hh1
  refine ⟨⟨hw1, a1, a2, a3, a4, a5⟩, ⟨hh1, b1, b2, b3, b4⟩, ?_, rfl⟩
  unfold rectangles
  simp only [List.forall_mem_append]
  refine ⟨⟨⟨⟨⟨⟨⟨⟨⟨?_, ?_⟩, ?_⟩, ?_⟩, ?_⟩, ?_⟩, ?_⟩, ?_⟩, ?_⟩, ?_⟩ <;>
    (split_ifs <;>
      simp [Event.NonDegenerate, hw1, hh1, a1, a2, a3, a4, a5, b1, b2, b3, b4])

/-- Witness of C17: the default sizes, with the flags as written. -/
theorem grid_strictly_increasing_witness :
    (0 : Int) < sampleParams.w ∧ (0 : Int) < sampleParams.w1 ∧ (0 : Int) < sampleParams.w2 ∧
    (0 : Int) < sampleParams.h ∧ (0 : Int) < sampleParams.h1 ∧ (0 : Int) < sampleParams.h2 ∧
    ((0 < sampleParams.w1 ∧ sampleParams.w1 < x3 sampleParams ∧
        x3 sampleParams < x4 sampleParams ∧ x4 sampleParams < x5 sampleParams ∧
        x5 sampleParams < x6 sampleParams ∧ x1 sampleParams < x2 sampleParams) ∧
      (0 < sampleParams.h1 ∧ sampleParams.h1 < y1 sampleParams ∧
        y1 sampleParams < y2 sampleParams ∧ y2 sampleParams < y3 sampleParams ∧
        y3 sampleParams < y4 sampleParams) ∧
      (∀ e ∈ rectangles Flags.written sampleParams, e.NonDegenerate) ∧
      ((rectangles Flags.written sampleParams).filter Event.isHorizontal).length = 48) :=
  ⟨by decide, by decide, by decide, by decide, by decide, by decide,
    grid_strictly_increasing Flags.written sampleParams (by decide) (by decide) (by decide)
      (by decide) (by decide) (by decide)⟩

end Lockpart

/-! ## `pbtest.js`: the message for an entry of unknown type -/

namespace PbTest

open JSVal

theorem loop_plain_prefix (E : Engine) (pb : PathBuilder) (hpb : NamesPassEarlierTests E pb)
    (specType : JSVal) (rest : List Spec) :
    ∀ (pre : List Spec) (i : Nat), plainLeaves.all pre = true →
      configPathBuilderAux.loop E pb specType (pre ++ rest) i =
        ⟨(leafPoints.all pre).map Call.append ++
            (configPathBuilderAux.loop E pb specType rest (i + pre.length)).calls,
          (configPathBuilderAux.loop E pb specType rest (i + pre.length)).thrown⟩
  | [], i, _ => by simp [leafPoints.all]
  | .arr type its :: pre, i, h => by
    rw [plainLeaves.all, Bool.and_eq_true] at h
    have ih := loop_plain_prefix E pb hpb specType rest pre (i + 1) h.2
    rw [List.cons_append, configPathBuilderAux.loop,
      configPathBuilderAux_plain E pb hpb (.arr type its) h.1 ⟨type, its, rfl⟩, ih,
      Run.andThen_ok]
    simp [leafPoints.all, Nat.add_assoc, Nat.add_comm 1]
  | .nullish :: _, _, h => by simp [plainLeaves.all, plainLeaves] at h
  | .obj type x y :: pre, i, h => by
    rw [plainLeaves.all, Bool.and_eq_true] at h
    have ih := loop_plain_prefix E pb hpb specType rest pre (i + 1) h.2
    obtain ⟨h1, h2, h3⟩ := hpb
    have ht := h.1
    simp only [plainLeaves, Bool.or_eq_true, beq_iff_eq] at ht
    rcases ht with (ht | ht) | ht <;> subst ht
    · have e1 : looseEq E (str "MOVE_TO") (str "CLOSE") = false := by rw [looseEq_str_str]; decide
      have e2 : looseEq E (str "MOVE_TO") (str "MOVE_TO") = true := by rw [looseEq_str_str]; decide
      simp [configPathBuilderAux.loop, e1, e2, h1, ih, Run.andThen_call, leafPoints.all,
        leafPoints, Nat.add_assoc, Nat.add_comm 1]
    · have e1 : looseEq E (str "SEG_END") (str "CLOSE") = false := by rw [looseEq_str_str]; decide
      have e2 : looseEq E (str "SEG_END") (str "MOVE_TO") = false := by rw [looseEq_str_str]; decide
      have e3 : looseEq E (str "SEG_END") (str "SEG_END") = true := by rw [looseEq_str_str]; decide
      simp [configPathBuilderAux.loop, e1, e2, e3, h2, h3, ih, Run.andThen_call, leafPoints.all,
        leafPoints, Nat.add_assoc, Nat.add_comm 1]
    · have e1 : looseEq E (str "CLOSE") (str "CLOSE") = true := by rw [looseEq_str_str]; decide
      simp [configPathBuilderAux.loop, e1, ih, Run.andThen_call, leafPoints.all,
        leafPoints, Nat.add_assoc, Nat.add_comm 1]

/-- C15 (the code at the failing inputs): in an array literal, after entries
of type "MOVE_TO", "SEG_END" or "CLOSE" (or arrays of such), an entry whose
type the tests do not recognise makes `configPathBuilderAux` throw; the
points of the entries before it have been appended and none after it; the
index in the message is the index of the entry in its array; but the type in
the message is `spec.type`, read from the array, which is `undefined`: the
message is "bad type: undefined at index i", whatever the type of the
entry. -/
theorem configPathBuilderAux_bad_type_message (E : Engine) (pb : PathBuilder)
    (hpb : NamesPassEarlierTests E pb) (pre post : List Spec) (ty x y : JSVal)
    (hpre : plainLeaves.all pre = true) (hty : Unrecognised E pb ty) :
    configPathBuilderAux E pb (.arr undefined (pre ++ .obj ty x y :: post)) =
      ⟨(leafPoints.all pre).map Call.append,
        some (.str ("bad type: undefined at index " ++ toString pre.length))⟩ := by
  obtain ⟨t1, t2, t3, t4, t5, t6, t7, t8⟩ := hty
  have u1 : looseEq E undefined (str "CONTROL") = false := rfl
  have u2 : looseEq E undefined (str "SPLINE") = false := rfl
  have hs : "bad type: " ++ toStr E undefined ++ " at index " = "bad type: undefined at index " := by
    show "bad type: " ++ "undefined" ++ " at index " = "bad type: undefined at index "
    decide
  rw [configPathBuilderAux, loop_plain_prefix E pb hpb undefined _ pre 0 hpre]
  simp [configPathBuilderAux.loop, t1, t2, t3, t4, t5, t6, t7, t8, u1, u2, Run.throw, hs]

/-- Witness of C15's failing input: the entry `{type: "FOO", x: 1, y: 2}`
between a "MOVE_TO" and a "SEG_END" entry, with the sample builder. -/
theorem configPathBuilderAux_bad_type_message_witness :
    NamesPassEarlierTests sampleEngine sampleBuilder ∧
    plainLeaves.all [.obj (str "MOVE_TO") (num 20) (num 30)] = true ∧
    Unrecognised sampleEngine sampleBuilder (str "FOO") ∧
    configPathBuilderAux sampleEngine sampleBuilder
        (.arr undefined ([.obj (str "MOVE_TO") (num 20) (num 30)] ++
          .obj (str "FOO") (num 1) (num 2) :: [.obj (str "SEG_END") (num 50) (num 60)])) =
      ⟨[.append (.moveTo (num 20) (num 30))],
        some (.str "bad type: undefined at index 1")⟩ :=
  ⟨by decide, by decide, by decide,
    (configPathBuilderAux_bad_type_message sampleEngine sampleBuilder (by decide)
      [.obj (str "MOVE_TO") (num 20) (num 30)] [.obj (str "SEG_END") (num 50) (num 60)]
      (str "FOO") (num 1) (num 2) (by decide) (by decide)).trans rfl⟩

end PbTest

/-! ## The expression interpreter -/

namespace Esp

theorem Extends.refl (a : Interp) : Extends a a := ⟨fun _ h => h, le_refl _, le_refl _⟩

theorem Extends.trans {a b c : Interp} (h1 : Extends a b) (h2 : Extends b c) : Extends a c :=
  ⟨fun n h => h2.1 n (h1.1 n h), le_trans h1.2.1 h2.2.1, le_trans h1.2.2 h2.2.2⟩

theorem assocSet_isSome (l : List (String × Value)) (key : String) (v : Value) (name : String)
    (h : (assocGet l name).isSome = true) : (assocGet (assocSet l key v) name).isSome = true := by
  induction l with
  | nil => simp [assocGet] at h
  | cons kv rest ih =>
    obtain ⟨k, w⟩ := kv
    by_cases hn : k = name
    · subst hn
      by_cases hk : k = key
      · simp [assocSet, assocGet, hk]
      · simp [assocSet, assocGet, hk]
    · simp only [assocGet, hn, if_false] at h
      by_cases hk : k = key
      · simp only [assocSet, hk, if_true, assocGet]
        rw [← hk, if_neg hn]
        exact h
      · simp only [assocSet, hk, if_false, assocGet, hn]
        exact ih h

theorem setFrameVar_length (frames : List Frame) (i : Nat) (name : String) (v : Value) :
    (setFrameVar frames i name v).length = frames.length := by
  unfold setFrameVar
  split <;> simp

theorem store_extends (env : Option Nat) (name : String) (v : Value) (it : Interp) :
    Extends it (store env name v it) := by
  cases env with
  | none => exact ⟨fun n h => assocSet_isSome _ _ _ _ h, le_refl _, le_refl _⟩
  | some i => exact ⟨fun _ h => h, le_refl _, by simp [store, setFrameVar_length]⟩

theorem keeps_pure {α : Type} (a : α) : Eval.Keeps (pure a : Eval α) :=
  ⟨fun s => Extends.refl s⟩

theorem keeps_throw {α : Type} (e : Error) : Eval.Keeps (Eval.throw e : Eval α) :=
  ⟨fun s => Extends.refl s⟩

theorem keeps_fail {α : Type} (msg : String) : Eval.Keeps (Eval.fail msg : Eval α) :=
  ⟨fun s => Extends.refl s⟩

theorem keeps_bind {α β : Type} {m : Eval α} {f : α → Eval β} (hm : Eval.Keeps m)
    (hf : ∀ a, Eval.Keeps (f a)) : Eval.Keeps (m >>= f) := by
  refine ⟨fun s => ?_⟩
  show Extends s (Eval.bind m f s).2
  unfold Eval.bind
  have h1 := hm.run s
  split
  · rename_i a s1 heq
    rw [heq] at h1
    exact h1.trans ((hf a).run s1)
  · rename_i e s1 heq
    rw [heq] at h1
    exact h1

theorem keeps_ofExcept {α : Type} (r : Except Error α) : Eval.Keeps (Eval.ofExcept r) := by
  cases r with
  | ok a => exact keeps_pure a
  | error e => exact keeps_throw e

theorem keeps_lookupVar (env : Option Nat) (name : String) :
    Eval.Keeps (lookupVar env name) := by
  refine ⟨fun s => ?_⟩
  unfold lookupVar
  split <;> exact Extends.refl s

theorem keeps_declare (env : Option Nat) (name : String) (v : Value) :
    Eval.Keeps (declare env name v) := ⟨fun s => store_extends env name v s⟩

theorem keeps_assignVar (env : Option Nat) (name : String) (v : Value) :
    Eval.Keeps (assignVar env name v) := by
  refine ⟨fun s => ?_⟩
  unfold assignVar
  split
  · exact store_extends _ name v s
  · exact Extends.refl s

theorem keeps_alloc (c : Cell) : Eval.Keeps (alloc c) :=
  ⟨fun _ => ⟨fun _ h => h, by simp [alloc], le_refl _⟩⟩

theorem keeps_readCell (addr : Nat) : Eval.Keeps (readCell addr) := by
  refine ⟨fun s => ?_⟩
  unfold readCell
  split <;> exact Extends.refl s

theorem keeps_writeCell (addr : Nat) (c : Cell) : Eval.Keeps (writeCell addr c) :=
  ⟨fun _ => ⟨fun _ h => h, by simp [writeCell], le_refl _⟩⟩

theorem keeps_newFrame (parent : Option Nat) (vars : List (String × Value)) :
    Eval.Keeps (newFrame parent vars) :=
  ⟨fun _ => ⟨fun _ h => h, le_refl _, by simp [newFrame]⟩⟩

theorem keeps_readMember (obj : Value) (key : String) : Eval.Keeps (readMember obj key) := by
  unfold readMember
  repeat' first
    | apply keeps_pure
    | apply keeps_fail
    | apply keeps_readCell
    | apply keeps_bind
    | intro _
    | split

theorem keeps_writeMember (obj : Value) (key : String) (v : Value) :
    Eval.Keeps (writeMember obj key v) := by
  unfold writeMember
  repeat' first
    | apply keeps_fail
    | apply keeps_readCell
    | apply keeps_writeCell
    | apply keeps_bind
    | intro _
    | split

theorem keeps_readIndex (obj idx : Value) : Eval.Keeps (readIndex obj idx) := by
  unfold readIndex
  repeat' first
    | apply keeps_pure
    | apply keeps_fail
    | apply keeps_readCell
    | apply keeps_readMember
    | apply keeps_bind
    | intro _
    | split

theorem keeps_writeIndex (obj idx v : Value) : Eval.Keeps (writeIndex obj idx v) := by
  unfold writeIndex
  repeat' first
    | apply keeps_fail
    | apply keeps_readCell
    | apply keeps_writeCell
    | apply keeps_writeMember
    | apply keeps_bind
    | intro _
    | split

/-- Every step of the evaluator retains the state it starts from. -/
theorem keeps_eval (fuel : Nat) :
    (∀ env e, Eval.Keeps (evalExpr fuel env e)) ∧
    (∀ env es, Eval.Keeps (evalArgs fuel env es)) ∧
    (∀ env ps acc, Eval.Keeps (evalProps fuel env ps acc)) ∧
    (∀ fv args, Eval.Keeps (callFunction fuel fv args)) ∧
    (∀ env ss last, Eval.Keeps (evalBlock fuel env ss last)) ∧
    (∀ env s last, Eval.Keeps (evalStmt fuel env s last)) ∧
    (∀ env v i hi body, Eval.Keeps (forLoop fuel env v i hi body)) := by
  induction fuel with
  | zero =>
    refine ⟨?_, ?_, ?_, ?_, ?_, ?_, ?_⟩ <;> intros <;> simp only [evalExpr, evalArgs, evalProps,
      callFunction, evalBlock, evalStmt, forLoop] <;> exact keeps_throw _
  | succ n ih =>
    obtain ⟨hE, hA, hP, hC, hB, hS, hF⟩ := ih
    refine ⟨?_, ?_, ?_, ?_, ?_, ?_, ?_⟩
    · intro env e
      cases e <;> simp only [evalExpr] <;>
        repeat' first
          | apply hE | apply hA | apply hP | apply hC | apply hB
          | apply keeps_pure | apply keeps_fail | apply keeps_ofExcept
          | apply keeps_lookupVar | apply keeps_alloc | apply keeps_assignVar
          | apply keeps_readMember | apply keeps_writeMember | apply keeps_readIndex
          | apply keeps_writeIndex
          | apply keeps_bind
          | intro _
          | split
    · intro env es
      cases es <;> simp only [evalArgs] <;>
        repeat' first
          | apply hE | apply hA
          | apply keeps_pure
          | apply keeps_bind
          | intro _
    · intro env ps acc
      rcases ps with _ | ⟨⟨key, e⟩, rest⟩ <;> simp only [evalProps] <;>
        repeat' first
          | apply hE | apply hP
          | apply keeps_pure
          | apply keeps_bind
          | intro _
    · intro fv args
      cases fv <;> simp only [callFunction] <;>
        repeat' first
          | apply hB
          | apply keeps_fail | apply keeps_readCell | apply keeps_newFrame
          | apply keeps_bind
          | intro _
          | split
    · intro env ss last
      cases ss <;> simp only [evalBlock] <;>
        repeat' first
          | apply hB | apply hS
          | apply keeps_pure
          | apply keeps_bind
    · intro env s last
      cases s <;> simp only [evalStmt] <;>
        repeat' first
          | apply hE | apply hF
          | apply keeps_pure | apply keeps_fail | apply keeps_alloc | apply keeps_declare
          | apply keeps_bind
          | intro _
          | split
    · intro env v i hi body
      rw [forLoop]
      repeat' first
        | apply hB | apply hF
        | apply keeps_pure | apply keeps_declare
        | apply keeps_bind
        | intro _
        | split

theorem keeps_runProgram (fuel : Nat) : ∀ (ss : List Stmt) (last : Value),
    Eval.Keeps (runProgram fuel ss last)
  | [], last => keeps_pure last
  | s :: rest, last => by
    simp only [runProgram]
    exact keeps_bind ((keeps_eval fuel).2.2.2.2.2.1 none s last)
      (fun v => keeps_runProgram fuel rest v)

theorem below_refl {α : Type} (m : Eval α) : Eval.Below m m := ⟨fun _ _ => rfl⟩

theorem below_trans {α : Type} {a b c : Eval α} (h1 : Eval.Below a b) (h2 : Eval.Below b c) :
    Eval.Below a c := by
  refine ⟨fun s h => ?_⟩
  have e1 := h1.run s h
  have e2 := h2.run s (by rw [e1]; exact h)
  rw [e2, e1]

theorem below_throw {α : Type} (m : Eval α) : Eval.Below (Eval.throw .resourceError) m :=
  ⟨fun _ h => absurd rfl h⟩

theorem below_bind {α β : Type} {m m1 : Eval α} {f f1 : α → Eval β} (hm : Eval.Below m m1)
    (hf : ∀ a, Eval.Below (f a) (f1 a)) : Eval.Below (m >>= f) (m1 >>= f1) := by
  refine ⟨fun s h => ?_⟩
  show Eval.bind m1 f1 s = Eval.bind m f s
  have h0 : (Eval.bind m f s).1 ≠ .error .resourceError := h
  unfold Eval.bind at h0 ⊢
  cases hms : m s with
  | mk r s1 =>
    cases r with
    | ok a =>
      have e := hm.run s (by rw [hms]; simp)
      rw [hms] at h0
      rw [e, hms]
      exact (hf a).run s1 h0
    | error e =>
      rw [hms] at h0
      have e1 := hm.run s (by rw [hms]; simpa using h0)
      rw [e1, hms]

/-- A deeper bound does not change an evaluation that stays within the
bound. -/
theorem below_eval (fuel : Nat) :
    (∀ env e, Eval.Below (evalExpr fuel env e) (evalExpr (fuel + 1) env e)) ∧
    (∀ env es, Eval.Below (evalArgs fuel env es) (evalArgs (fuel + 1) env es)) ∧
    (∀ env ps acc, Eval.Below (evalProps fuel env ps acc) (evalProps (fuel + 1) env ps acc)) ∧
    (∀ fv args, Eval.Below (callFunction fuel fv args) (callFunction (fuel + 1) fv args)) ∧
    (∀ env ss last, Eval.Below (evalBlock fuel env ss last) (evalBlock (fuel + 1) env ss last)) ∧
    (∀ env s last, Eval.Below (evalStmt fuel env s last) (evalStmt (fuel + 1) env s last)) ∧
    (∀ env v i hi body,
      Eval.Below (forLoop fuel env v i hi body) (forLoop (fuel + 1) env v i hi body)) := by
  induction fuel with
  | zero =>
    refine ⟨?_, ?_, ?_, ?_, ?_, ?_, ?_⟩ <;> intros <;>
      first
        | (rw [evalExpr]; exact below_throw _)
        | (rw [evalArgs]; exact below_throw _)
        | (rw [evalProps]; exact below_throw _)
        | (rw [callFunction]; exact below_throw _)
        | (rw [evalBlock]; exact below_throw _)
        | (rw [evalStmt]; exact below_throw _)
        | (rw [forLoop]; exact below_throw _)
  | succ n ih =>
    obtain ⟨hE, hA, hP, hC, hB, hS, hF⟩ := ih
    refine ⟨?_, ?_, ?_, ?_, ?_, ?_, ?_⟩
    · intro env e
      cases e <;> simp only [evalExpr] <;>
        repeat' first
          | apply below_refl
          | apply hE | apply hA | apply hP | apply hC | apply hB
          | apply below_bind
          | intro _
          | split
    · intro env es
      cases es <;> simp only [evalArgs] <;>
        repeat' first
          | apply below_refl
          | apply hE | apply hA
          | apply below_bind
          | intro _
    · intro env ps acc
      rcases ps with _ | ⟨⟨key, e⟩, rest⟩ <;> simp only [evalProps] <;>
        repeat' first
          | apply below_refl
          | apply hE | apply hP
          | apply below_bind
          | intro _
    · intro fv args
      cases fv <;> simp only [callFunction] <;>
        repeat' first
          | apply below_refl
          | apply hB
          | apply below_bind
          | intro _
          | split
    · intro env ss last
      cases ss <;> simp only [evalBlock] <;>
        repeat' first
          | apply below_refl
          | apply hB | apply hS
          | apply below_bind
    · intro env s last
      cases s <;> simp only [evalStmt] <;>
        repeat' first
          | apply below_refl
          | apply hE | apply hF
          | apply below_bind
          | intro _
          | split
    · intro env v i hi body
      simp only [forLoop]
      repeat' first
        | apply below_refl
        | apply hB | apply hF
        | apply below_bind
        | intro _
        | split

theorem below_runProgram (fuel : Nat) : ∀ (ss : List Stmt) (last : Value),
    Eval.Below (runProgram fuel ss last) (runProgram (fuel + 1) ss last)
  | [], _ => below_refl _
  | s :: rest, last => by
    simp only [runProgram]
    exact below_bind ((below_eval fuel).2.2.2.2.2.1 none s last)
      (fun v => below_runProgram fuel rest v)

theorem below_runProgram_add (fuel : Nat) (ss : List Stmt) (last : Value) :
    ∀ k, Eval.Below (runProgram fuel ss last) (runProgram (fuel + k) ss last)
  | 0 => below_refl _
  | k + 1 =>
    below_trans (below_runProgram_add fuel ss last k) (below_runProgram (fuel + k) ss last)

/-- A `parse()` call that stays within the depth bound gives the same result
and the same state with every larger bound. -/
theorem parse_more_fuel (fuel k : Nat) (it : Interp) (src : String)
    (h : (it.parse fuel src).1 ≠ .error .resourceError) :
    it.parse (fuel + k) src = it.parse fuel src := by
  unfold Interp.parse at h ⊢
  cases hp : parseProgram src with
  | none => rfl
  | some prog =>
    rw [hp] at h
    exact (below_runProgram_add fuel prog .undefined k).run it h

theorem setIndex_length (l : List Value) (v : Value) : setIndex l l.length v = l ++ [v] := by
  induction l with
  | nil => rfl
  | cons x xs ih => simp [setIndex, ih]

theorem runProgram_append_fails (fuel : Nat) (s : Stmt) (post : List Stmt) :
    ∀ (pre : List Stmt) (last v : Value) (it it1 it2 : Interp) (e : Error),
      runProgram fuel pre last it = (.ok v, it1) →
      evalStmt fuel none s v it1 = (.error e, it2) →
      runProgram fuel (pre ++ s :: post) last it = (.error e, it2)
  | [], last, v, it, it1, it2, e, h1, h2 => by
    simp only [runProgram] at h1
    cases h1
    show Eval.bind (evalStmt fuel none s last) _ it = _
    unfold Eval.bind
    rw [h2]
  | p :: pre, last, v, it, it1, it2, e, h1, h2 => by
    have h1b : Eval.bind (evalStmt fuel none p last) (fun w => runProgram fuel pre w) it =
        (.ok v, it1) := h1
    show Eval.bind (evalStmt fuel none p last)
      (fun w => runProgram fuel (pre ++ s :: post) w) it = _
    unfold Eval.bind at h1b ⊢
    cases hp : evalStmt fuel none p last it with
    | mk r s1 =>
      cases r with
      | ok w =>
        rw [hp] at h1b
        exact runProgram_append_fails fuel s post pre w v s1 it1 it2 e h1b h2
      | error e1 =>
        rw [hp] at h1b
        cases h1b

/-- The range-iteration text evaluated on a new interpreter with depth
bound 16. -/
theorem rangeSource_at_16 :
    (Interp.create.parse 16 rangeSource).1 = .ok (.array 0) ∧
    (Interp.create.parse 16 rangeSource).2.arrayItems (.array 0) =
      some [.num 0, .num 1, .num 4, .num 9, .num 16, .num 25, .num 36, .num 49, .num 64,
        .num 81] := by
  decide!

/-- C12: range iteration with an array that grows.  On a new interpreter,
with any depth bound of at least 16, evaluating
"var array1 = new []; for (i: 0..10) {array1[i]=i*i}; array1" returns an
array of length 10 whose element `i` is `i*i` for every `0 <= i < 10`: the
upper bound of the range is exclusive (a range from a bound to itself runs
nothing), and an assignment at the index equal to the current length extends
the array by that element. -/
theorem range_loop_fills_array (k : Nat) :
    (∃ addr items,
      (Interp.create.parse (16 + k) rangeSource).1 = .ok (.array addr) ∧
      (Interp.create.parse (16 + k) rangeSource).2.arrayItems (.array addr) = some items ∧
      items.length = 10 ∧
      ∀ i, i < 10 → items[i]? = some (.num ((i : ℚ) * (i : ℚ)))) ∧
    (∀ (l : List Value) (v : Value), setIndex l l.length v = l ++ [v]) ∧
    (∀ (fuel : Nat) (env : Option Nat) (v : String) (hi : ℚ) (body : List Stmt),
      forLoop (fuel + 1) env v hi hi body = pure ()) := by
  have h16 := rangeSource_at_16
  have hk : Interp.create.parse (16 + k) rangeSource = Interp.create.parse 16 rangeSource :=
    parse_more_fuel 16 k _ _ (by rw [h16.1]; simp)
  refine ⟨⟨0, [.num 0, .num 1, .num 4, .num 9, .num 16, .num 25, .num 36, .num 49, .num 64,
    .num 81], ?_, ?_, ?_, ?_⟩, setIndex_length, ?_⟩
  · rw [hk]
    exact h16.1
  · rw [hk]
    exact h16.2
  · rfl
  · decide!
  · intro fuel env v hi body
    simp [forLoop]

/-- C13: a failing `parse()` call does not corrupt the state of the
interpreter.  For every instance, depth bound and source text: a SyntaxError
leaves the instance as it was; whatever the outcome, every name bound in the
global environment before the call is bound after it; when the statements
before the failing one have run, the call ends with the error of the failing
statement, in a state that retains every binding they established; and the
instance accepts later calls: after the failing text `failingSource` the
bindings of `x` and `y` are there and "x + y" evaluates to 41. -/
theorem failed_parse_keeps_state (fuel : Nat) (it : Interp) (src : String) :
    (parseProgram src = none → it.parse fuel src = (.error .syntaxError, it)) ∧
    Extends it (it.parse fuel src).2 ∧
    (∀ (pre post : List Stmt) (s : Stmt) (v : Value) (it1 it2 : Interp) (e : Error),
      parseProgram src = some (pre ++ s :: post) →
      runProgram fuel pre .undefined it = (.ok v, it1) →
      evalStmt fuel none s v it1 = (.error e, it2) →
      it.parse fuel src = (.error e, it2) ∧ Extends it it1 ∧ Extends it1 it2) ∧
    ((Interp.create.parse 16 failingSource).1 =
        .error (.runtimeError "assignment to undeclared variable z") ∧
      (Interp.create.parse 16 failingSource).2.global? "x" = some (.num 20) ∧
      (Interp.create.parse 16 failingSource).2.global? "y" = some (.num 21) ∧
      ((Interp.create.parse 16 failingSource).2.parse 16 "x + y").1 = .ok (.num 41)) := by
  refine ⟨?_, ?_, ?_, ?_⟩
  · intro h
    simp [Interp.parse, h]
  · unfold Interp.parse
    cases hp : parseProgram src with
    | none => exact Extends.refl it
    | some prog => exact (keeps_runProgram fuel prog .undefined).run it
  · intro pre post s v it1 it2 e hp h1 h2
    refine ⟨?_, ?_, ?_⟩
    · simp only [Interp.parse, hp]
      exact runProgram_append_fails fuel s post pre .undefined v it it1 it2 e h1 h2
    · have := (keeps_runProgram fuel pre .undefined).run it
      rw [h1] at this
      exact this
    · have := ((keeps_eval fuel).2.2.2.2.2.1 none s v).run it1
      rw [h2] at this
      exact this
  · decide!

/-- Two words in a row at the start of a text match no production: after the
expression statement that the first word is, a separator is required. -/
theorem parseStmts_two_words (m : Nat) (x y : String) (rest : List Token) :
    parseStmts (m + 12) (.ident x :: .ident y :: rest) = none := rfl

theorem parseProgram_two_words (src : String) (x y : String) (rest : List Token)
    (h : tokenize src = some (.ident x :: .ident y :: rest)) : parseProgram src = none := by
  have hp : parseStmts (20 * ((Token.ident x :: Token.ident y :: rest).length + 1))
      (Token.ident x :: Token.ident y :: rest) = none := by
    have e : 20 * ((Token.ident x :: Token.ident y :: rest).length + 1) =
        (20 * (Token.ident x :: Token.ident y :: rest).length + 8) + 12 := by ring
    rw [e]
    exact parseStmts_two_words _ x y rest
  unfold parseProgram
  rw [h]
  simp only [hp]

/-- C14: a source text that matches no production of the grammar makes
`parse()` fail with a SyntaxError: the call returns no value, and returns (it
is a total function), leaving the instance as it was.  This is so for a text
that the lexer rejects, and for plain prose at top level, a text whose first
two tokens are words, such as "This is plain prose, not a program.". -/
theorem unparsable_text_is_syntax_error (fuel : Nat) (it : Interp) (src : String) :
    (parseProgram src = none → it.parse fuel src = (.error .syntaxError, it)) ∧
    (tokenize src = none → it.parse fuel src = (.error .syntaxError, it)) ∧
    (∀ (x y : String) (rest : List Token),
      tokenize src = some (.ident x :: .ident y :: rest) →
      it.parse fuel src = (.error .syntaxError, it)) ∧
    it.parse fuel proseSource = (.error .syntaxError, it) := by
  have key : ∀ t : String, parseProgram t = none →
      it.parse fuel t = (.error .syntaxError, it) := by
    intro t h
    simp [Interp.parse, h]
  refine ⟨key src, fun h => key src (by simp [parseProgram, h]),
    fun x y rest h => key src (parseProgram_two_words src x y rest h), ?_⟩
  have ht : tokenize proseSource = some [.ident "This", .ident "is", .ident "plain",
      .ident "prose", .sym ",", .ident "not", .ident "a", .ident "program", .sym "."] := by
    decide!
  exact key _ (parseProgram_two_words _ _ _ _ ht)

end Esp
